import Mathlib

/-
Shallow embedding of the werewolf game-session engine in src/app.py
(Legato29/line-werewolf-bot).  Python dicts become association lists in
insertion order, sets become lists, the APScheduler job table becomes a
list of job ids, and every handler is a pure function from its inputs and
the registry/scheduler state to the updated state plus the list of
notification intents (target id, text) it emits.  Randomness
(random.choice, random.shuffle) is modelled by an explicit index or
permutation parameter.  Wall-clock data (deadline_at timestamps) is not
modelled; the job bookkeeping (n_job_id, d_job_id, the scheduler's job
table) is.
-/

namespace WerewolfBot

/-- One notification intent: (recipient id, text).  reply_text to the
issuing event is modelled as a message addressed to the issuer's uid;
push_text to a room or user keeps its target id. -/
abbrev Msg := String × String

/-- Player, from class Player (src/app.py lines 152-157). -/
structure Player where
  user_id : String
  name : String
  role : Option String
  alive : Bool
deriving Repr, DecidableEq

/-- The night_flags dict of GameRoom (src/app.py lines 173-186).
Python sets become lists (membership is what the code uses). -/
structure NightFlags where
  seer_done_uids : List String
  doctor_saved_uid : Option String
  doctor_selfheal_used : List String
  doctor_last_saved_uid : Option String
  witch_heal_left : Bool
  witch_poison_left : Bool
  witch_save_flag : Bool
  witch_poison_uid : Option String
  witch_uid : Option String
deriving Repr, DecidableEq

/-- GameRoom (src/app.py lines 159-196).  players is the uid-keyed dict
in insertion order; votes maps voter uid to target uid; wolf_targets is
the nomination multiset in append order.  deadline_at (a wall-clock
timestamp) is not modelled. -/
structure GameRoom where
  room_id : String
  host_id : String
  players : List Player
  started : Bool
  phase : String
  base_roles : List String
  current_roles : List String
  votes : List (String × String)
  wolf_targets : List String
  night_flags : NightFlags
  hunter_pending_uid : Option String
  n_job_id : Option String
  d_job_id : Option String
deriving Repr, DecidableEq

/-- The process-wide ROOMS dict (src/app.py line 198), room_id-keyed. -/
abbrev Registry := List (String × GameRoom)

/-- The scheduler's table of scheduled single-shot jobs, by job id.
APScheduler job ids are unique keys, so removal drops every entry with
that id. -/
structure Sched where
  jobs : List String
deriving Repr, DecidableEq

def Sched.removeJob (s : Sched) (jid : String) : Sched :=
  ⟨s.jobs.filter (fun j => ¬ j = jid)⟩

/-- add_job with replace_existing=True: any previous job with this id is
replaced. -/
def Sched.addJob (s : Sched) (jid : String) : Sched :=
  ⟨jid :: s.jobs.filter (fun j => ¬ j = jid)⟩

def regGet (rooms : Registry) (rid : String) : Option GameRoom :=
  (rooms.find? (fun e => e.1 = rid)).map (fun e => e.2)

/-- Dict assignment ROOMS[rid] = room: overwrite in place, else append. -/
def regSet : Registry → String → GameRoom → Registry
  | [], rid, room => [(rid, room)]
  | e :: es, rid, room =>
      if e.1 = rid then (rid, room) :: es else e :: regSet es rid room

/-- ROOMS.pop(rid, None). -/
def regPop (rooms : Registry) (rid : String) : Registry :=
  rooms.filter (fun e => ¬ e.1 = rid)

/-- ensure_in_room (src/app.py lines 284-288): first room whose players
dict contains uid, scanning rooms in insertion order. -/
def ensure_in_room (uid : String) (rooms : Registry) : Option GameRoom :=
  (rooms.find? (fun e => e.2.players.any (fun p => p.user_id = uid))).map (fun e => e.2)

def findPlayer (room : GameRoom) (uid : String) : Option Player :=
  room.players.find? (fun p => p.user_id = uid)

/-- room.players[uid] where the caller has already established membership;
the default is a dead roleless player and is unreachable at call sites. -/
def getPlayer (room : GameRoom) (uid : String) : Player :=
  (findPlayer room uid).getD ⟨uid, "", none, false⟩

/-- Is the player with this uid present and alive? -/
def isAliveUid (room : GameRoom) (uid : String) : Bool :=
  match findPlayer room uid with
  | some p => p.alive
  | none => false

/-- Alive status of the (first) player with a given uid in a list. -/
def aliveInList (ps : List Player) (uid : String) : Bool :=
  match ps.find? (fun p => p.user_id = uid) with
  | some p => p.alive
  | none => false

/-- GameRoom.alive_players (src/app.py lines 195-196). -/
def alive_players (room : GameRoom) : List Player :=
  room.players.filter (fun p => p.alive)

/-- cands = [p for p in room.alive_players() if p.name == target_name];
the code then uses cands[0], i.e. the first alive player with the name. -/
def firstAliveNamed (room : GameRoom) (target_name : String) : Option Player :=
  (alive_players room).find? (fun p => p.name = target_name)

/-- Flip alive to False on the first player with this uid (uids are dict
keys, hence unique in reachable states). -/
def setDeadFirst : List Player → String → List Player
  | [], _ => []
  | p :: ps, uid =>
      if p.user_id = uid then { p with alive := false } :: ps
      else p :: setDeadFirst ps uid

/-- p = room.players.get(uid); if p and p.alive: p.alive = False;
deaths.append(p) — returns the updated list and the appended deaths. -/
def killIfAlive (ps : List Player) (uid : String) : List Player × List Player :=
  match ps.find? (fun p => p.user_id = uid) with
  | some p => if p.alive then (setDeadFirst ps uid, [{ p with alive := false }]) else (ps, [])
  | none => (ps, [])

/-- Overwrite-or-append assignment room.votes[voter] = target. -/
def votesSet : List (String × String) → String → String → List (String × String)
  | [], k, v => [(k, v)]
  | e :: es, k, v => if e.1 = k then (k, v) :: es else e :: votesSet es k v

/-- Python str whitespace for split()/strip(). -/
def isPyWs (c : Char) : Bool :=
  c = ' ' ∨ c = '\t' ∨ c = '\n' ∨ c = '\r'

/-- text.split(maxsplit=1): drop leading whitespace, first token, then
the remainder after the separating whitespace run (kept verbatim). -/
def pySplitMax1 (s : String) : List String :=
  let cs := s.toList.dropWhile isPyWs
  let tok := cs.takeWhile (fun c => ¬ isPyWs c)
  let rest := (cs.dropWhile (fun c => ¬ isPyWs c)).dropWhile isPyWs
  if tok.isEmpty then []
  else if rest.isEmpty then [String.mk tok]
  else [String.mk tok, String.mk rest]

/-- str.strip(). -/
def pyStrip (s : String) : String :=
  String.mk (((s.toList.dropWhile isPyWs).reverse.dropWhile isPyWs).reverse)

/-- Keys of a Counter built from l, in first-occurrence order (Python
dict iteration order), with their multiplicities. -/
def dedupFirst (l : List String) : List String :=
  l.foldl (fun acc x => if x ∈ acc then acc else acc ++ [x]) []

def tallyInOrder (l : List String) : List (String × Nat) :=
  (dedupFirst l).map (fun k => (k, l.count k))

def maxTallyCount (tally : List (String × Nat)) : Nat :=
  (tally.map (fun e => e.2)).foldl Nat.max 0

-- ===== constants (src/app.py lines 138-141; env defaults) =====

def MIN_P : Nat := 5
def MAX_P : Nat := 8

def WOLF_COUNT_BY_N (n : Nat) : Option Nat :=
  if n = 5 then some 1
  else if n = 6 then some 2
  else if n = 7 then some 2
  else if n = 8 then some 2
  else none

def NIGHT_MINUTES : Nat := 6
def DAY_MINUTES : Nat := 8

-- ===== role templates (src/app.py lines 201-236) =====

/-- build_base_roles (src/app.py lines 201-206). -/
def build_base_roles (n : Nat) : List String :=
  let wolves := (WOLF_COUNT_BY_N n).getD (Nat.max 1 (n / 4))
  let roles := List.replicate wolves "狼人" ++ ["預言家", "醫生"]
  roles ++ List.replicate (n - roles.length) "村民"

/-- pretty_roles (src/app.py lines 208-218). -/
def pretty_roles (roles : List String) : String :=
  let order := ["狼人", "預言家", "醫生", "女巫", "獵人", "村民"]
  let parts1 := (order.filter (fun r => 0 < roles.count r)).map
    (fun r => r ++ "×" ++ toString (roles.count r))
  let extras := (dedupFirst roles).filter (fun r => ¬ r ∈ order)
  let parts2 := extras.map (fun r => r ++ "×" ++ toString (roles.count r))
  let parts := parts1 ++ parts2
  if parts.isEmpty then "（空）" else String.intercalate "、" parts

/-- roles[roles.index(a)] = b. -/
def replaceFirst : List String → String → String → List String
  | [], _, _ => []
  | x :: xs, a, b => if x = a then b :: xs else x :: replaceFirst xs a b

/-- swap_doctor_to_witch (src/app.py lines 220-227); the in-place list
mutation is returned as the third component. -/
def swap_doctor_to_witch (roles : List String) : Bool × String × List String :=
  if "女巫" ∈ roles then (false, "已有『女巫』，無法再換。", roles)
  else if ¬ "醫生" ∈ roles then (false, "模板中沒有『醫生』可供替換。", roles)
  else (true, "已將『醫生』替換為『女巫』。", replaceFirst roles "醫生" "女巫")

/-- swap_villager_to_hunter (src/app.py lines 229-236). -/
def swap_villager_to_hunter (roles : List String) : Bool × String × List String :=
  if "獵人" ∈ roles then (false, "已有『獵人』，無法再換。", roles)
  else if ¬ "村民" ∈ roles then (false, "模板中沒有『村民』可供替換。", roles)
  else (true, "已將一名『村民』替換為『獵人』。", replaceFirst roles "村民" "獵人")

-- ===== timers (src/app.py lines 326-398) =====

/-- schedule_night_timeout (src/app.py lines 326-341).  minutes=None or 0
falls back to NIGHT_MINUTES (Python: minutes or NIGHT_MINUTES). -/
def schedule_night_timeout (room : GameRoom) (sched : Sched) (minutes : Option Nat) :
    GameRoom × Sched × List Msg :=
  let m := match minutes with
    | some k => if k = 0 then NIGHT_MINUTES else k
    | none => NIGHT_MINUTES
  let sched1 := match room.n_job_id with
    | some j => sched.removeJob j
    | none => sched
  let jid := "night-" ++ room.room_id
  let sched2 := sched1.addJob jid
  ({ room with n_job_id := some jid }, sched2,
   [(room.room_id, "🌙 夜晚開始（" ++ toString m ++ " 分鐘）。到時自動結算。")])

/-- schedule_day_timeout (src/app.py lines 343-358). -/
def schedule_day_timeout (room : GameRoom) (sched : Sched) (minutes : Option Nat) :
    GameRoom × Sched × List Msg :=
  let m := match minutes with
    | some k => if k = 0 then DAY_MINUTES else k
    | none => DAY_MINUTES
  let sched1 := match room.d_job_id with
    | some j => sched.removeJob j
    | none => sched
  let jid := "day-" ++ room.room_id
  let sched2 := sched1.addJob jid
  ({ room with d_job_id := some jid }, sched2,
   [(room.room_id, "🌞 白天開始（" ++ toString m ++ " 分鐘）。到時自動結算。")])

/-- clear_schedules (src/app.py lines 360-366). -/
def clear_schedules (room : GameRoom) (sched : Sched) : GameRoom × Sched :=
  let sched1 := match room.n_job_id with
    | some j => sched.removeJob j
    | none => sched
  let sched2 := match room.d_job_id with
    | some j => sched1.removeJob j
    | none => sched1
  ({ room with n_job_id := none, d_job_id := none }, sched2)

-- ===== win evaluator (src/app.py lines 263-282) =====

/-- wolves = [p for p in alive if p.role == 狼人] (src/app.py line 265). -/
def livingWolves (room : GameRoom) : List Player :=
  (alive_players room).filter (fun p => p.role = some "狼人")

/-- good = [p for p in alive if p.role != 狼人] (src/app.py line 266). -/
def livingGood (room : GameRoom) : List Player :=
  (alive_players room).filter (fun p => ¬ p.role = some "狼人")

/-- check_game_end (src/app.py lines 263-282).  Returns (ended, the room
object's final state, registry, scheduler, messages).  announce_event is
the issuer uid when a reply event is available, none for a push to the
room. -/
def check_game_end (room : GameRoom) (rooms : Registry) (sched : Sched)
    (announce_event : Option String) : Bool × GameRoom × Registry × Sched × List Msg :=
  if (livingWolves room).length = 0 ∨ (livingGood room).length ≤ (livingWolves room).length then
    let msg :=
      if (livingWolves room).length = 0 then "🎉 遊戲結束：好人獲勝！" else "💀 遊戲結束：狼人獲勝！"
    let target := announce_event.getD room.room_id
    let rc := clear_schedules room sched
    (true, rc.1, regPop rooms room.room_id, rc.2, [(target, msg)])
  else
    (false, room, rooms, sched, [])

-- ===== night resolution (src/app.py lines 756-827) =====

/-- Step 1 of resolve_night_and_start_day (src/app.py lines 757-763):
tally wolf nominations, pick among the max-count targets; random.choice
is modelled by index i into the tied list. -/
def wolfKillChoice (room : GameRoom) (i : Nat) : Option String :=
  if room.wolf_targets.isEmpty then none
  else
    let tally := tallyInOrder room.wolf_targets
    let maxv := maxTallyCount tally
    let tied := (tally.filter (fun e => e.2 = maxv)).map (fun e => e.1)
    tied.get? (i % tied.length)

/-- Step 2 (src/app.py lines 765-767): doctor save overrides the kill. -/
def wolfTargetPostDoctor (room : GameRoom) (i : Nat) : Option String :=
  let t := wolfKillChoice room i
  if room.night_flags.doctor_saved_uid = t then none else t

/-- Step 3 (src/app.py lines 769-775): witch heal, as a function of the
flags and the post-doctor kill target; returns the new kill target and
the new witch_heal_left. -/
def witchHealStep (save_flag heal_left : Bool) (witch_uid : Option String)
    (t : Option String) : Option String × Bool :=
  if save_flag ∧ heal_left then
    match t with
    | some u => if ¬ some u = witch_uid then (none, false) else (some u, heal_left)
    | none => (none, heal_left)
  else (t, heal_left)

def wolfTargetPostWitch (room : GameRoom) (i : Nat) : Option String × Bool :=
  witchHealStep room.night_flags.witch_save_flag room.night_flags.witch_heal_left
    room.night_flags.witch_uid (wolfTargetPostDoctor room i)

/-- Step 4 (src/app.py lines 777-781): witch poison charge; returns the
effective poison target and the new witch_poison_left. -/
def poisonStep (poison_uid : Option String) (poison_left : Bool) : Option String × Bool :=
  if poison_uid.isSome ∧ poison_left then (poison_uid, false) else (none, poison_left)

/-- resolve_night_and_start_day, lines 756-816: everything up to (and
including) clearing the per-night flags, but before check_game_end and
the transition to day.  Returns (room, deaths, messages). -/
def resolve_night_core (room : GameRoom) (i : Nat) (event : Option String) :
    GameRoom × List Player × List Msg :=
  let wt := wolfTargetPostWitch room i
  let wolf_target_uid := wt.1
  let heal_left := wt.2
  let ps := poisonStep room.night_flags.witch_poison_uid room.night_flags.witch_poison_left
  let poison_uid := ps.1
  let poison_left := ps.2
  let k1 := match wolf_target_uid with
    | some u => killIfAlive room.players u
    | none => (room.players, [])
  let k2 := match poison_uid with
    | some u => if ¬ some u = wolf_target_uid then killIfAlive k1.1 u else (k1.1, [])
    | none => (k1.1, [])
  let deaths := k1.2 ++ k2.2
  let pending := deaths.foldl
    (fun acc p => if p.role = some "獵人" then some p.user_id else acc)
    room.hunter_pending_uid
  let hunterMsgs := (deaths.filter (fun p => p.role = some "獵人")).map
    (fun p => (p.user_id, "你被淘汰了！可『私訊』輸入：開槍 名字（一次）。"))
  let announce :=
    if deaths.isEmpty then "🌞 天亮了！昨晚是平安夜。"
    else "🌞 天亮了！昨晚淘汰：" ++ String.intercalate "、" (deaths.map (fun p => p.name))
  let flags0 := room.night_flags
  let flags := { flags0 with
    witch_heal_left := heal_left,
    witch_poison_left := poison_left,
    seer_done_uids := [],
    doctor_last_saved_uid := flags0.doctor_saved_uid,
    doctor_saved_uid := none,
    witch_save_flag := false,
    witch_poison_uid := none }
  let room1 := { room with
    players := k2.1,
    wolf_targets := [],
    night_flags := flags,
    hunter_pending_uid := pending }
  (room1, deaths, hunterMsgs ++ [(event.getD room.room_id, announce)])

/-- resolve_night_and_start_day (src/app.py lines 756-827): the core,
then check_game_end, then phase := day and the day timer.  Returns the
room object's final state (visible to callers through Python aliasing
even when the registry entry was popped), the registry, the scheduler,
and the messages. -/
def resolve_night_and_start_day (room : GameRoom) (rooms : Registry) (sched : Sched)
    (i : Nat) (event : Option String) : GameRoom × Registry × Sched × List Msg :=
  let rc := resolve_night_core room i event
  let room1 := rc.1
  let msgs1 := rc.2.2
  let rooms1 := regSet rooms room1.room_id room1
  let ce := check_game_end room1 rooms1 sched event
  if ce.1 then (ce.2.1, ce.2.2.1, ce.2.2.2.1, msgs1 ++ ce.2.2.2.2)
  else
    let room2 := { room1 with phase := "day" }
    let sd := schedule_day_timeout room2 sched none
    let tip := (event.getD sd.1.room_id, "請討論並『投票 名字』，時間到自動『結算』放逐最高票。")
    (sd.1, regSet rooms1 sd.1.room_id sd.1, sd.2.1, msgs1 ++ sd.2.2 ++ [tip])

-- ===== day resolution (src/app.py lines 830-853) =====

/-- losers: the vote targets achieving the maximum count, in
first-occurrence order (src/app.py lines 836-838). -/
def dayLosers (room : GameRoom) : List String :=
  let tally := tallyInOrder (room.votes.map (fun v => v.2))
  let maxv := maxTallyCount tally
  (tally.filter (fun e => e.2 = maxv)).map (fun e => e.1)

/-- auto_endday (src/app.py lines 830-853).  random.choice over losers is
modelled by index i; none models the (unreachable) KeyError when the
chosen uid is not in the players dict. -/
def auto_endday (room : GameRoom) (rooms : Registry) (sched : Sched) (i : Nat) :
    Option (GameRoom × Registry × Sched × List Msg) :=
  if room.votes.isEmpty then
    let msg : Msg := (room.room_id, "⌛ 白天時間到：今天無人投票，進入夜晚。")
    let room1 := { room with phase := "night" }
    let sn := schedule_night_timeout room1 sched none
    some (sn.1, regSet rooms sn.1.room_id sn.1, sn.2.1, [msg] ++ sn.2.2)
  else
    let losers := dayLosers room
    match losers.get? (i % losers.length) with
    | none => none
    | some victim_uid =>
      match findPlayer room victim_uid with
      | none => none
      | some victim0 =>
        let victim := { victim0 with alive := false }
        let room1 := { room with players := setDeadFirst room.players victim_uid, votes := [] }
        let msgs1 : List Msg := [(room1.room_id, "📢 白天結算：" ++ victim.name ++ " 被放逐。")]
        let room2 :=
          if victim.role = some "獵人" then { room1 with hunter_pending_uid := some victim.user_id }
          else room1
        let msgs2 : List Msg :=
          if victim.role = some "獵人" then
            [(victim.user_id, "你被淘汰了！可『私訊』輸入：開槍 名字（一次）。")]
          else []
        let rooms1 := regSet rooms room2.room_id room2
        let ce := check_game_end room2 rooms1 sched none
        if ce.1 then some (ce.2.1, ce.2.2.1, ce.2.2.2.1, msgs1 ++ msgs2 ++ ce.2.2.2.2)
        else
          let room3 := { room2 with phase := "night" }
          let sn := schedule_night_timeout room3 sched none
          let msgs5 : List Msg := [(sn.1.room_id, "🌙 夜晚來臨，狼人請在『私訊』輸入「擊殺 名字」。")]
          some (sn.1, regSet rooms1 sn.1.room_id sn.1, sn.2.1, msgs1 ++ msgs2 ++ sn.2.2 ++ msgs5)

-- ===== timeout jobs and host force/extend (src/app.py lines 368-398) =====

/-- night_timeout_job (src/app.py lines 368-374). -/
def night_timeout_job (room_id : String) (rooms : Registry) (sched : Sched) (i : Nat) :
    Registry × Sched × List Msg :=
  match regGet rooms room_id with
  | none => (rooms, sched, [])
  | some room =>
    if ¬ room.phase = "night" then (rooms, sched, [])
    else
      let r := resolve_night_and_start_day room rooms sched i none
      if r.1.phase = "day" then
        let sd := schedule_day_timeout r.1 r.2.2.1 none
        (regSet r.2.1 sd.1.room_id sd.1, sd.2.1, r.2.2.2 ++ sd.2.2)
      else (r.2.1, r.2.2.1, r.2.2.2)

/-- day_timeout_job (src/app.py lines 376-382). -/
def day_timeout_job (room_id : String) (rooms : Registry) (sched : Sched) (i : Nat) :
    Option (Registry × Sched × List Msg) :=
  match regGet rooms room_id with
  | none => some (rooms, sched, [])
  | some room =>
    if ¬ room.phase = "day" then some (rooms, sched, [])
    else
      match auto_endday room rooms sched i with
      | none => none
      | some r =>
        if r.1.phase = "night" then
          let sn := schedule_night_timeout r.1 r.2.2.1 none
          some (regSet r.2.1 sn.1.room_id sn.1, sn.2.1, r.2.2.2 ++ sn.2.2)
        else some (r.2.1, r.2.2.1, r.2.2.2)

/-- extend_current_phase (src/app.py lines 384-388). -/
def extend_current_phase (room : GameRoom) (sched : Sched) (add_minutes : Nat) :
    GameRoom × Sched × List Msg :=
  if room.phase = "night" then schedule_night_timeout room sched (some add_minutes)
  else if room.phase = "day" then schedule_day_timeout room sched (some add_minutes)
  else (room, sched, [])

/-- force_settle (src/app.py lines 390-398).  The phase re-check after
resolution reads the local room object, modelled by the returned room. -/
def force_settle (room : GameRoom) (rooms : Registry) (sched : Sched) (i : Nat) :
    Option (GameRoom × Registry × Sched × List Msg) :=
  if room.phase = "night" then
    let r := resolve_night_and_start_day room rooms sched i none
    if r.1.phase = "day" then
      let sd := schedule_day_timeout r.1 r.2.2.1 none
      some (sd.1, regSet r.2.1 sd.1.room_id sd.1, sd.2.1, r.2.2.2 ++ sd.2.2)
    else some r
  else if room.phase = "day" then
    match auto_endday room rooms sched i with
    | none => none
    | some r =>
      if r.1.phase = "night" then
        let sn := schedule_night_timeout r.1 r.2.2.1 none
        some (sn.1, regSet r.2.1 sn.1.room_id sn.1, sn.2.1, r.2.2.2 ++ sn.2.2)
      else some r
  else some (room, rooms, sched, [])

-- ===== role dealing (src/app.py lines 245-261) =====

/-- In-place role assignment on the first player with this uid. -/
def setRoleFirst : List Player → String → String → List Player
  | [], _, _ => []
  | p :: ps, uid, r =>
      if p.user_id = uid then { p with role := some r } :: ps
      else p :: setRoleFirst ps uid r

/-- assign_and_notify (src/app.py lines 245-261).  random.shuffle on the
uid list and on the role list is modelled by the permutation parameters
shuffleU and shuffleR. -/
def assign_and_notify (room : GameRoom) (roles : List String)
    (shuffleU shuffleR : List String → List String) : GameRoom × List Msg :=
  let uids := shuffleU (room.players.map (fun p => p.user_id))
  let rolesSh := shuffleR roles
  let pairs := uids.zip rolesSh
  let st := pairs.foldl
    (fun acc e =>
      (setRoleFirst acc.1 e.1 e.2,
       if e.2 = "女巫" then some e.1 else acc.2))
    (room.players, room.night_flags.witch_uid)
  let players := st.1
  let room1 := { room with
    players := players,
    night_flags := { room.night_flags with witch_uid := st.2 } }
  let wolf_names := (players.filter (fun p => p.role = some "狼人")).map (fun p => p.name)
  let msgs := players.map (fun p =>
    let base := "你的身份是：" ++ p.role.getD "None"
    if p.role = some "狼人" then
      let mates := wolf_names.filter (fun n => ¬ n = p.name)
      (p.user_id, base ++ "\n你的同伴：" ++
        (if mates.isEmpty then "（無）" else String.intercalate "、" mates))
    else (p.user_id, base))
  (room1, msgs)

-- ===== group commands (src/app.py lines 418-611, 855-884) =====

/-- cmd_start (src/app.py lines 469-495). -/
def cmd_start (rid uid : String) (rooms : Registry) : Registry × List Msg :=
  match regGet rooms rid with
  | none => (rooms, [(uid, "尚未建房。")])
  | some room =>
    if ¬ uid = room.host_id then (rooms, [(uid, "只有建房者可「開始」。")])
    else
      let n := room.players.length
      if ¬ (MIN_P ≤ n ∧ n ≤ MAX_P) then
        (rooms, [(uid, "目前人數 " ++ toString n ++ "，需 " ++ toString MIN_P ++ "～" ++
          toString MAX_P ++ " 人。")])
      else if room.started then (rooms, [(uid, "遊戲已開始。")])
      else
        let base := build_base_roles n
        let room1 := { room with base_roles := base, current_roles := base, phase := "config" }
        let wolves := (WOLF_COUNT_BY_N n).getD (Nat.max 1 (n / 4))
        (regSet rooms room1.room_id room1,
         [(uid, "🔧 已產生預設模板（可換角）：\n・建議狼人數：" ++ toString wolves ++
           "\n・目前角色：" ++ pretty_roles room1.current_roles ++
           "\n可用：『換 女巫』（醫生→女巫）、『換 獵人』（村民→獵人）、『確認角色』")])

/-- cmd_swap (src/app.py lines 497-518).  The two failing swap branches
and the unknown-target branch reply and leave the template untouched. -/
def cmd_swap (rid uid target : String) (rooms : Registry) : Registry × List Msg :=
  match regGet rooms rid with
  | none => (rooms, [(uid, "尚未建房。")])
  | some room =>
    if ¬ uid = room.host_id then (rooms, [(uid, "僅建房者可換角。")])
    else if ¬ room.phase = "config" then (rooms, [(uid, "現在不是換角階段。")])
    else if target = "女巫" ∨ target = "獵人" then
      let r := if target = "女巫" then swap_doctor_to_witch room.current_roles
               else swap_villager_to_hunter room.current_roles
      let room1 := { room with current_roles := r.2.2 }
      let msgtext := (if r.1 then r.2.1 else "換角失敗：" ++ r.2.1) ++
        "\n目前角色：" ++ pretty_roles room1.current_roles
      (regSet rooms room1.room_id room1, [(uid, msgtext)])
    else (rooms, [(uid, "只能換『女巫』或『獵人』。")])

/-- cmd_confirm_roles (src/app.py lines 520-554). -/
def cmd_confirm_roles (rid uid : String) (rooms : Registry) (sched : Sched)
    (shuffleU shuffleR : List String → List String) : Registry × Sched × List Msg :=
  match regGet rooms rid with
  | none => (rooms, sched, [(uid, "尚未建房。")])
  | some room =>
    if ¬ uid = room.host_id then (rooms, sched, [(uid, "僅建房者可確認角色。")])
    else if ¬ room.phase = "config" then
      (rooms, sched, [(uid, "現在不是確認階段。請先「開始」。")])
    else if ¬ room.current_roles.length = room.players.length then
      (rooms, sched, [(uid, "角色數與玩家數不符，請確認後再試。")])
    else
      let flags := { room.night_flags with
        seer_done_uids := [],
        doctor_saved_uid := none,
        witch_save_flag := false,
        witch_poison_uid := none }
      let room1 := { room with
        started := true,
        phase := "night",
        wolf_targets := [],
        night_flags := flags }
      let an := assign_and_notify room1 room1.current_roles shuffleU shuffleR
      let reply : Msg := (uid, "🎲 已發牌！\n本局角色：" ++ pretty_roles an.1.current_roles ++
        "\n🌙 夜晚開始（自動倒數 " ++ toString NIGHT_MINUTES ++ " 分鐘）：\n" ++
        "  狼人私訊『擊殺 名字』\n  預言家私訊『查驗 名字』\n  醫生私訊『救 名字』\n" ++
        "  女巫私訊『解救』（只能救當晚刀口，不得自救）或『投毒 名字』")
      let sn := schedule_night_timeout an.1 sched none
      (regSet rooms sn.1.room_id sn.1, sn.2.1, an.2 ++ [reply] ++ sn.2.2)

/-- cmd_reset (src/app.py lines 577-588). -/
def cmd_reset (rid uid : String) (rooms : Registry) (sched : Sched) :
    Registry × Sched × List Msg :=
  match regGet rooms rid with
  | none => (rooms, sched, [(uid, "無房可重置。")])
  | some room =>
    if ¬ uid = room.host_id then (rooms, sched, [(uid, "僅建房者可重置。")])
    else
      let rc := clear_schedules room sched
      (regPop rooms rid, rc.2, [(uid, "🔁 已重置房間。")])

/-- cmd_extend (src/app.py lines 590-600). -/
def cmd_extend (rid uid : String) (minutes : Nat) (rooms : Registry) (sched : Sched) :
    Registry × Sched × List Msg :=
  match regGet rooms rid with
  | none => (rooms, sched, [(uid, "尚未建房或遊戲未開始。")])
  | some room =>
    if ¬ room.started then (rooms, sched, [(uid, "尚未建房或遊戲未開始。")])
    else if ¬ uid = room.host_id then (rooms, sched, [(uid, "僅房主可延長。")])
    else
      let ec := extend_current_phase room sched minutes
      (regSet rooms ec.1.room_id ec.1, ec.2.1,
       ec.2.2 ++ [(uid, "⏳ 已將本階段重設為 " ++ toString minutes ++ " 分鐘倒數。")])

/-- cmd_force (src/app.py lines 602-611). -/
def cmd_force (rid uid : String) (rooms : Registry) (sched : Sched) (i : Nat) :
    Option (Registry × Sched × List Msg) :=
  match regGet rooms rid with
  | none => some (rooms, sched, [(uid, "尚未建房或遊戲未開始。")])
  | some room =>
    if ¬ room.started then some (rooms, sched, [(uid, "尚未建房或遊戲未開始。")])
    else if ¬ uid = room.host_id then some (rooms, sched, [(uid, "僅房主可立即結算。")])
    else (force_settle room rooms sched i).map (fun r => (r.2.1, r.2.2.1, r.2.2.2))

/-- cmd_vote (src/app.py lines 855-873); target_name arrives already
parsed by the dispatcher. -/
def cmd_vote (rid uid target_name : String) (rooms : Registry) : Registry × List Msg :=
  match regGet rooms rid with
  | none => (rooms, [(uid, "尚未建房。")])
  | some room =>
    if ¬ room.phase = "day" then (rooms, [(uid, "現在不是白天投票階段。")])
    else if ¬ (room.players.any (fun p => p.user_id = uid) ∧ (getPlayer room uid).alive) then
      (rooms, [(uid, "你未參與本局或已出局，不能投票。")])
    else
      match firstAliveNamed room target_name with
      | none => (rooms, [(uid, "找不到活著的「" ++ target_name ++ "」。")])
      | some target =>
        let room1 := { room with votes := votesSet room.votes uid target.user_id }
        (regSet rooms room1.room_id room1, [(uid, "✅ 已投票給：" ++ target_name)])

/-- cmd_endday (src/app.py lines 875-884). -/
def cmd_endday (rid uid : String) (rooms : Registry) (sched : Sched) (i : Nat) :
    Option (Registry × Sched × List Msg) :=
  match regGet rooms rid with
  | none => some (rooms, sched, [(uid, "尚未建房。")])
  | some room =>
    if ¬ room.phase = "day" then some (rooms, sched, [(uid, "現在不是白天結算階段。")])
    else (auto_endday room rooms sched i).map (fun r => (r.2.1, r.2.2.1, r.2.2.2))

-- ===== private night skills (src/app.py lines 614-753) =====

/-- pm_kill (src/app.py lines 614-633). -/
def pm_kill (uid text : String) (rooms : Registry) : Registry × List Msg :=
  match ensure_in_room uid rooms with
  | none => (rooms, [(uid, "現在不是夜晚，或你未在房間。")])
  | some room =>
    if ¬ (room.started ∧ room.phase = "night") then
      (rooms, [(uid, "現在不是夜晚，或你未在房間。")])
    else
      let me := getPlayer room uid
      if ¬ (me.alive ∧ me.role = some "狼人") then (rooms, [(uid, "只有存活的狼人可行動。")])
      else
        match pySplitMax1 text with
        | [_, arg] =>
          let target_name := pyStrip arg
          match firstAliveNamed room target_name with
          | none => (rooms, [(uid, "找不到活著的「" ++ target_name ++ "」。")])
          | some target =>
            let room1 := { room with wolf_targets := room.wolf_targets ++ [target.user_id] }
            (regSet rooms room1.room_id room1, [(uid, "已提名刀：" ++ target_name ++ "（待結算）")])
        | _ => (rooms, [(uid, "用法：擊殺 名字")])

/-- pm_seer (src/app.py lines 635-658). -/
def pm_seer (uid text : String) (rooms : Registry) : Registry × List Msg :=
  match ensure_in_room uid rooms with
  | none => (rooms, [(uid, "現在不是夜晚，或你未在房間。")])
  | some room =>
    if ¬ (room.started ∧ room.phase = "night") then
      (rooms, [(uid, "現在不是夜晚，或你未在房間。")])
    else
      let me := getPlayer room uid
      if ¬ (me.alive ∧ me.role = some "預言家") then
        (rooms, [(uid, "只有存活的『預言家』可行動。")])
      else if uid ∈ room.night_flags.seer_done_uids then (rooms, [(uid, "本晚已查驗過了。")])
      else
        match pySplitMax1 text with
        | [_, arg] =>
          let target_name := pyStrip arg
          match firstAliveNamed room target_name with
          | none => (rooms, [(uid, "找不到活著的「" ++ target_name ++ "」。")])
          | some target =>
            let flags := { room.night_flags with
              seer_done_uids := room.night_flags.seer_done_uids ++ [uid] }
            let room1 := { room with night_flags := flags }
            let verdict := if target.role = some "狼人" then "狼人" else "非狼人"
            (regSet rooms room1.room_id room1,
             [(uid, "查驗結果：" ++ target_name ++ " 是 " ++ verdict)])
        | _ => (rooms, [(uid, "用法：查驗 名字")])

/-- pm_doctor (src/app.py lines 660-690). -/
def pm_doctor (uid text : String) (rooms : Registry) : Registry × List Msg :=
  match ensure_in_room uid rooms with
  | none => (rooms, [(uid, "現在不是夜晚，或你未在房間。")])
  | some room =>
    if ¬ (room.started ∧ room.phase = "night") then
      (rooms, [(uid, "現在不是夜晚，或你未在房間。")])
    else
      let me := getPlayer room uid
      if ¬ (me.alive ∧ me.role = some "醫生") then
        (rooms, [(uid, "只有存活的『醫生』可行動。")])
      else
        match pySplitMax1 text with
        | [_, arg] =>
          let target_name := pyStrip arg
          match firstAliveNamed room target_name with
          | none => (rooms, [(uid, "找不到活著的「" ++ target_name ++ "」。")])
          | some target =>
            if room.night_flags.doctor_last_saved_uid = some target.user_id then
              (rooms, [(uid, "不得連續兩晚救同一人。")])
            else if target.user_id = uid ∧ uid ∈ room.night_flags.doctor_selfheal_used then
              (rooms, [(uid, "你的自救次數已用完。")])
            else
              let flags := { room.night_flags with doctor_saved_uid := some target.user_id }
              let flags1 :=
                if target.user_id = uid then
                  { flags with doctor_selfheal_used := flags.doctor_selfheal_used ++ [uid] }
                else flags
              let room1 := { room with night_flags := flags1 }
              (regSet rooms room1.room_id room1, [(uid, "已標記救援：" ++ target.name)])
        | _ => (rooms, [(uid, "用法：救 名字")])

/-- pm_witch_heal (src/app.py lines 692-706). -/
def pm_witch_heal (uid : String) (rooms : Registry) : Registry × List Msg :=
  match ensure_in_room uid rooms with
  | none => (rooms, [(uid, "現在不是夜晚，或你未在房間。")])
  | some room =>
    if ¬ (room.started ∧ room.phase = "night") then
      (rooms, [(uid, "現在不是夜晚，或你未在房間。")])
    else
      let me := getPlayer room uid
      if ¬ (me.alive ∧ me.role = some "女巫") then
        (rooms, [(uid, "只有存活的『女巫』可行動。")])
      else if ¬ room.night_flags.witch_heal_left then (rooms, [(uid, "你的解藥已用完。")])
      else
        let room1 := { room with night_flags := { room.night_flags with witch_save_flag := true } }
        (regSet rooms room1.room_id room1,
         [(uid, "已使用『解救』（僅對當晚刀口生效，且不得自救）。")])

/-- pm_witch_poison (src/app.py lines 708-730). -/
def pm_witch_poison (uid text : String) (rooms : Registry) : Registry × List Msg :=
  match ensure_in_room uid rooms with
  | none => (rooms, [(uid, "現在不是夜晚，或你未在房間。")])
  | some room =>
    if ¬ (room.started ∧ room.phase = "night") then
      (rooms, [(uid, "現在不是夜晚，或你未在房間。")])
    else
      let me := getPlayer room uid
      if ¬ (me.alive ∧ me.role = some "女巫") then
        (rooms, [(uid, "只有存活的『女巫』可行動。")])
      else if ¬ room.night_flags.witch_poison_left then (rooms, [(uid, "你的毒藥已用完。")])
      else
        match pySplitMax1 text with
        | [_, arg] =>
          let target_name := pyStrip arg
          match firstAliveNamed room target_name with
          | none => (rooms, [(uid, "找不到活著的「" ++ target_name ++ "」。")])
          | some target =>
            let room1 := { room with
              night_flags := { room.night_flags with witch_poison_uid := some target.user_id } }
            (regSet rooms room1.room_id room1, [(uid, "已標記『投毒』對象：" ++ target_name)])
        | _ => (rooms, [(uid, "用法：投毒 名字")])

/-- pm_hunter_shoot (src/app.py lines 732-753).  The first component is
the room object's final state (none when the shooter is in no room); the
missing-room branch is the code's silent return. -/
def pm_hunter_shoot (uid text : String) (rooms : Registry) (sched : Sched) :
    Option GameRoom × Registry × Sched × List Msg :=
  match ensure_in_room uid rooms with
  | none => (none, rooms, sched, [])
  | some room =>
    if ¬ room.hunter_pending_uid = some uid then
      (some room, rooms, sched, [(uid, "你目前無法開槍。")])
    else
      match pySplitMax1 text with
      | [_, arg] =>
        let target_name := pyStrip arg
        match firstAliveNamed room target_name with
        | none => (some room, rooms, sched, [(uid, "找不到活著的「" ++ target_name ++ "」。")])
        | some victim =>
          let room1 := { room with
            players := setDeadFirst room.players victim.user_id,
            hunter_pending_uid := none }
          let msgs1 : List Msg := [(room1.room_id, "🔫 獵人開槍：" ++ victim.name ++ " 被帶走。")]
          let rooms1 := regSet rooms room1.room_id room1
          let ce := check_game_end room1 rooms1 sched none
          (some ce.2.1, ce.2.2.1, ce.2.2.2.1, msgs1 ++ ce.2.2.2.2)
      | _ => (some room, rooms, sched, [(uid, "用法：開槍 名字")])

-- ===== concrete fixtures used to instantiate the theorems =====

def emptyFlags : NightFlags :=
  { seer_done_uids := [], doctor_saved_uid := none, doctor_selfheal_used := [],
    doctor_last_saved_uid := none, witch_heal_left := true, witch_poison_left := true,
    witch_save_flag := false, witch_poison_uid := none, witch_uid := none }

def wolfP : Player := { user_id := "w1", name := "狼甲", role := some "狼人", alive := true }
def villP1 : Player := { user_id := "v1", name := "小明", role := some "村民", alive := true }
def villP2 : Player := { user_id := "v2", name := "小華", role := some "村民", alive := true }
def villP3 : Player := { user_id := "v3", name := "小強", role := some "村民", alive := true }
def witchP : Player := { user_id := "wi", name := "巫巫", role := some "女巫", alive := true }
def doctorP : Player := { user_id := "dr", name := "醫醫", role := some "醫生", alive := true }
def hunterDeadP : Player :=
  { user_id := "hu", name := "獵獵", role := some "獵人", alive := false }
def hunterP2 : Player :=
  { user_id := "hu2", name := "獵乙", role := some "獵人", alive := true }
def villP4 : Player := { user_id := "v4", name := "小芳", role := some "村民", alive := true }

def sched0 : Sched := ⟨[]⟩

/-- A room in night phase with its night timer armed (one wolf, three
villagers, nobody acted). -/
def roomNightC2 : GameRoom :=
  { room_id := "R", host_id := "h", players := [wolfP, villP1, villP2, villP3],
    started := true, phase := "night", base_roles := [], current_roles := [],
    votes := [], wolf_targets := [], night_flags := emptyFlags,
    hunter_pending_uid := none, n_job_id := some "night-R", d_job_id := none }

def regC2 : Registry := [("R", roomNightC2)]
def schedC2 : Sched := ⟨["night-R"]⟩

/-- A room still in the waiting phase with one joined player. -/
def roomWaitC1 : GameRoom :=
  { room_id := "G", host_id := "h", players := [villP1],
    started := false, phase := "waiting", base_roles := [], current_roles := [],
    votes := [], wolf_targets := [], night_flags := emptyFlags,
    hunter_pending_uid := none, n_job_id := none, d_job_id := none }

def regWaitC1 : Registry := [("G", roomWaitC1)]

/-- Config-phase room whose template already contains the witch. -/
def roomCfgC1 : GameRoom :=
  { room_id := "G2", host_id := "h", players := [wolfP, villP1, villP2, villP3, villP4],
    started := false, phase := "config", base_roles := [],
    current_roles := ["狼人", "預言家", "女巫", "村民", "村民"],
    votes := [], wolf_targets := [], night_flags := emptyFlags,
    hunter_pending_uid := none, n_job_id := none, d_job_id := none }

def regCfgC1 : Registry := [("G2", roomCfgC1)]

/-- Already-started room with a full five-player roster. -/
def roomStartedC1 : GameRoom :=
  { room_id := "G3", host_id := "h", players := [wolfP, villP1, villP2, villP3, villP4],
    started := true, phase := "night", base_roles := [], current_roles := [],
    votes := [], wolf_targets := [], night_flags := emptyFlags,
    hunter_pending_uid := none, n_job_id := none, d_job_id := none }

def regStartedC1 : Registry := [("G3", roomStartedC1)]

/-- Night room in which the unique wolf nomination is the witch herself
and the witch used her heal this night. -/
def roomC3 : GameRoom :=
  { room_id := "R3", host_id := "h", players := [wolfP, witchP, villP1],
    started := true, phase := "night", base_roles := [], current_roles := [],
    votes := [], wolf_targets := ["wi"],
    night_flags := { emptyFlags with witch_save_flag := true, witch_uid := some "wi" },
    hunter_pending_uid := none, n_job_id := none, d_job_id := none }

/-- Night room with a poison charge aimed at v1 and no wolf nomination. -/
def roomC4 : GameRoom :=
  { room_id := "R4", host_id := "h", players := [wolfP, villP1, villP2],
    started := true, phase := "night", base_roles := [], current_roles := [],
    votes := [], wolf_targets := [],
    night_flags := { emptyFlags with witch_poison_uid := some "v1" },
    hunter_pending_uid := none, n_job_id := none, d_job_id := none }

/-- Day room where both villagers voted for the wolf. -/
def roomC5 : GameRoom :=
  { room_id := "R5", host_id := "h", players := [wolfP, villP1, villP2],
    started := true, phase := "day", base_roles := [], current_roles := [],
    votes := [("v1", "w1"), ("v2", "w1")], wolf_targets := [], night_flags := emptyFlags,
    hunter_pending_uid := none, n_job_id := none, d_job_id := some "day-R5" }

def regC5 : Registry := [("R5", roomC5)]

/-- Room with one living wolf and one living villager: W = G. -/
def roomC6 : GameRoom :=
  { room_id := "R6", host_id := "h", players := [wolfP, villP1],
    started := true, phase := "day", base_roles := [], current_roles := [],
    votes := [], wolf_targets := [], night_flags := emptyFlags,
    hunter_pending_uid := none, n_job_id := some "night-R6", d_job_id := none }

def regC6 : Registry := [("R6", roomC6)]

/-- Night room whose doctor saved v1 last night. -/
def roomC7 : GameRoom :=
  { room_id := "R7", host_id := "h", players := [doctorP, villP1],
    started := true, phase := "night", base_roles := [], current_roles := [],
    votes := [], wolf_targets := [],
    night_flags := { emptyFlags with doctor_last_saved_uid := some "v1" },
    hunter_pending_uid := none, n_job_id := none, d_job_id := none }

def regC7 : Registry := [("R7", roomC7)]

/-- Night room whose doctor already consumed the one self-save. -/
def roomC7b : GameRoom :=
  { room_id := "R7", host_id := "h", players := [doctorP, villP1],
    started := true, phase := "night", base_roles := [], current_roles := [],
    votes := [], wolf_targets := [],
    night_flags := { emptyFlags with doctor_selfheal_used := ["dr"] },
    hunter_pending_uid := none, n_job_id := none, d_job_id := none }

def regC7b : Registry := [("R7", roomC7b)]

/-- Day room used to exercise the stale night-timer guard. -/
def roomDayC8 : GameRoom :=
  { room_id := "R8", host_id := "h", players := [wolfP, villP1, villP2],
    started := true, phase := "day", base_roles := [], current_roles := [],
    votes := [], wolf_targets := [], night_flags := emptyFlags,
    hunter_pending_uid := none, n_job_id := some "night-R8", d_job_id := some "day-R8" }

def regC8 : Registry := [("R8", roomDayC8)]

/-- Room with a dead hunter whose retaliation shot is pending and a
second, living hunter available as a shot target. -/
def roomC10 : GameRoom :=
  { room_id := "RA", host_id := "h", players := [hunterDeadP, wolfP, villP1, hunterP2],
    started := true, phase := "day", base_roles := [], current_roles := [],
    votes := [], wolf_targets := [], night_flags := emptyFlags,
    hunter_pending_uid := some "hu", n_job_id := none, d_job_id := none }

def regC10 : Registry := [("RA", roomC10)]

-- ===== helper lemmas =====

theorem regGet_regSet_self (rooms : Registry) (rid : String) (room : GameRoom) :
    regGet (regSet rooms rid room) rid = some room := by
  induction rooms with
  | nil => simp [regSet, regGet]
  | cons e es ih =>
    by_cases h : e.1 = rid
    · simp [regSet, regGet, h]
    · simpa [regSet, regGet, h] using ih

theorem regSet_of_regGet (rooms : Registry) (rid : String) (room : GameRoom)
    (h : regGet rooms rid = some room) : regSet rooms rid room = rooms := by
  induction rooms with
  | nil => simp [regGet] at h
  | cons e es ih =>
    obtain ⟨k, v⟩ := e
    by_cases he : k = rid
    · simp [regGet, List.find?, he] at h
      simp [regSet, he, h]
    · simp [regGet, List.find?, he] at h
      have := ih (by simpa [regGet] using h)
      simp [regSet, he, this]

theorem regGet_regPop_self (rooms : Registry) (rid : String) :
    regGet (regPop rooms rid) rid = none := by
  induction rooms with
  | nil => simp [regPop, regGet]
  | cons e es ih =>
    by_cases h : e.1 = rid
    · simpa [regPop, h] using ih
    · simpa [regPop, regGet, List.find?, h] using ih

theorem mem_removeJob (s : Sched) (k j : String) :
    j ∈ (s.removeJob k).jobs ↔ j ∈ s.jobs ∧ ¬ j = k := by
  simp [Sched.removeJob]

theorem mem_addJob (s : Sched) (k j : String) :
    j ∈ (s.addJob k).jobs ↔ j = k ∨ (j ∈ s.jobs ∧ ¬ j = k) := by
  simp [Sched.addJob]

theorem isAliveUid_eq_aliveInList (room : GameRoom) (uid : String) :
    isAliveUid room uid = aliveInList room.players uid := rfl

theorem find?_setDeadFirst_ne (ps : List Player) (u v : String) (h : ¬ v = u) :
    (setDeadFirst ps u).find? (fun p => p.user_id = v) =
      ps.find? (fun p => p.user_id = v) := by
  have huv : ¬ u = v := fun hh => h hh.symm
  induction ps with
  | nil => simp [setDeadFirst]
  | cons p ps ih =>
    by_cases hu : p.user_id = u
    · have hv : ¬ p.user_id = v := by
        intro hv; exact h (hv ▸ hu)
      simp [setDeadFirst, hu, List.find?, hv, huv, h]
    · by_cases hv : p.user_id = v
      · simp [setDeadFirst, hu, List.find?, hv, huv, h]
      · simp [setDeadFirst, hu, List.find?, hv, huv, h, ih]

theorem aliveInList_setDeadFirst_self (ps : List Player) (u : String) :
    aliveInList (setDeadFirst ps u) u = false := by
  induction ps with
  | nil => simp [setDeadFirst, aliveInList]
  | cons p ps ih =>
    by_cases hu : p.user_id = u
    · simp [setDeadFirst, hu, aliveInList, List.find?]
    · simpa [setDeadFirst, hu, aliveInList, List.find?] using ih

theorem aliveInList_killIfAlive_self (ps : List Player) (u : String) :
    aliveInList (killIfAlive ps u).1 u = false := by
  unfold killIfAlive
  cases hf : ps.find? (fun p => p.user_id = u) with
  | none => simp [aliveInList, hf]
  | some p =>
    by_cases ha : p.alive
    · simp [ha, aliveInList_setDeadFirst_self]
    · simp [ha, aliveInList, hf]

theorem find?_killIfAlive_ne (ps : List Player) (u v : String) (h : ¬ v = u) :
    (killIfAlive ps u).1.find? (fun p => p.user_id = v) =
      ps.find? (fun p => p.user_id = v) := by
  unfold killIfAlive
  cases hf : ps.find? (fun p => p.user_id = u) with
  | none => simp
  | some p =>
    by_cases ha : p.alive
    · simp [ha, find?_setDeadFirst_ne ps u v h]
    · simp [ha]

theorem killIfAlive_snd_uid (ps : List Player) (u : String) :
    (killIfAlive ps u).2 = [] ∨
      ∃ d, (killIfAlive ps u).2 = [d] ∧ d.user_id = u := by
  unfold killIfAlive
  cases hf : ps.find? (fun p => p.user_id = u) with
  | none => simp
  | some p =>
    by_cases ha : p.alive
    · right
      refine ⟨{ p with alive := false }, by simp [ha], ?_⟩
      have := List.find?_some hf
      simpa using this
    · simp [ha]

theorem check_game_end_room_players (room : GameRoom) (rooms : Registry) (sched : Sched)
    (e : Option String) : (check_game_end room rooms sched e).2.1.players = room.players := by
  simp only [check_game_end]
  split <;> rfl

theorem check_game_end_room_phase (room : GameRoom) (rooms : Registry) (sched : Sched)
    (e : Option String) : (check_game_end room rooms sched e).2.1.phase = room.phase := by
  simp only [check_game_end]
  split <;> rfl

theorem check_game_end_room_pending (room : GameRoom) (rooms : Registry) (sched : Sched)
    (e : Option String) :
    (check_game_end room rooms sched e).2.1.hunter_pending_uid = room.hunter_pending_uid := by
  simp only [check_game_end]
  split <;> rfl

theorem check_game_end_room_votes (room : GameRoom) (rooms : Registry) (sched : Sched)
    (e : Option String) : (check_game_end room rooms sched e).2.1.votes = room.votes := by
  simp only [check_game_end]
  split <;> rfl

theorem clear_schedules_not_mem (room : GameRoom) (sched : Sched) (j : String)
    (h : room.n_job_id = some j ∨ room.d_job_id = some j) :
    ¬ j ∈ (clear_schedules room sched).2.jobs := by
  unfold clear_schedules
  cases hn : room.n_job_id with
  | none =>
    cases hd : room.d_job_id with
    | none => simp [hn, hd] at h
    | some jd =>
      have hj : jd = j := by
        rcases h with h | h
        · rw [hn] at h; cases h
        · rw [hd] at h; exact Option.some_inj.mp h
      simp [mem_removeJob, hj]
  | some jn =>
    cases hd : room.d_job_id with
    | none =>
      have hj : jn = j := by
        rcases h with h | h
        · rw [hn] at h; exact Option.some_inj.mp h
        · rw [hd] at h; cases h
      simp [mem_removeJob, hj]
    | some jd =>
      rcases h with h | h
      · have hj : jn = j := by rw [hn] at h; exact Option.some_inj.mp h
        simp [mem_removeJob, hj]
      · have hj : jd = j := by rw [hd] at h; exact Option.some_inj.mp h
        simp [mem_removeJob, hj]

theorem mem_schedule_day_jobs (room : GameRoom) (sched : Sched) (m : Option Nat) (j : String)
    (hj : ¬ j = "day-" ++ room.room_id) (hd : ¬ room.d_job_id = some j) :
    (j ∈ (schedule_day_timeout room sched m).2.1.jobs ↔ j ∈ sched.jobs) := by
  unfold schedule_day_timeout
  cases hdj : room.d_job_id with
  | none => simp [mem_addJob, mem_removeJob, hj]
  | some k =>
    have hk : ¬ j = k := by
      intro hh; exact hd (by rw [hdj, hh])
    simp [mem_addJob, mem_removeJob, hj, hk]

theorem dayJob_mem_schedule_day (room : GameRoom) (sched : Sched) (m : Option Nat) :
    ("day-" ++ room.room_id) ∈ (schedule_day_timeout room sched m).2.1.jobs := by
  unfold schedule_day_timeout
  cases hdj : room.d_job_id <;> simp [mem_addJob]

theorem schedule_day_room_phase (room : GameRoom) (sched : Sched) (m : Option Nat) :
    (schedule_day_timeout room sched m).1.phase = room.phase := rfl

theorem schedule_day_room_id (room : GameRoom) (sched : Sched) (m : Option Nat) :
    (schedule_day_timeout room sched m).1.room_id = room.room_id := rfl

theorem schedule_day_room_djob (room : GameRoom) (sched : Sched) (m : Option Nat) :
    (schedule_day_timeout room sched m).1.d_job_id = some ("day-" ++ room.room_id) := rfl

theorem resolve_core_phase (room : GameRoom) (i : Nat) (e : Option String) :
    (resolve_night_core room i e).1.phase = room.phase := rfl

theorem resolve_core_room_id (room : GameRoom) (i : Nat) (e : Option String) :
    (resolve_night_core room i e).1.room_id = room.room_id := rfl

theorem resolve_core_djob (room : GameRoom) (i : Nat) (e : Option String) :
    (resolve_night_core room i e).1.d_job_id = room.d_job_id := rfl

-- ===== C9 =====

/-- C9: build_base_roles(n) returns, for every n in [5,8], exactly n
roles with the table-specified werewolf count (5 gives 1; 6, 7, 8 give
2), exactly one seer, exactly one doctor, and villagers filling the
remainder; for n outside the table the werewolf count is max 1 (n / 4). -/
theorem spec_C9_build_base_roles (n : Nat) :
    (5 ≤ n → n ≤ 8 →
      (build_base_roles n).length = n ∧
      (build_base_roles n).count "狼人" = (if n = 5 then 1 else 2) ∧
      (build_base_roles n).count "預言家" = 1 ∧
      (build_base_roles n).count "醫生" = 1 ∧
      (build_base_roles n).count "村民" = n - ((if n = 5 then 1 else 2) + 2)) ∧
    ((n < 5 ∨ 8 < n) → (build_base_roles n).count "狼人" = Nat.max 1 (n / 4)) := by
  constructor
  · intro h5 h8
    have hn : n = 5 ∨ n = 6 ∨ n = 7 ∨ n = 8 := by omega
    rcases hn with h | h | h | h <;> subst h <;> refine ⟨?_, ?_, ?_, ?_, ?_⟩ <;> decide
  · intro h
    have h5 : ¬ n = 5 := by omega
    have h6 : ¬ n = 6 := by omega
    have h7 : ¬ n = 7 := by omega
    have h8 : ¬ n = 8 := by omega
    simp only [build_base_roles, WOLF_COUNT_BY_N, h5, h6, h7, h8, if_false,
      Option.getD_none]
    simp [List.count_append, List.count_replicate]

/-- Witness: the theorem instantiated at n = 6 (a table entry) and at
n = 9 (the fallback case, 9 / 4 = 2 wolves). -/
theorem spec_C9_witness :
    ((build_base_roles 6).length = 6 ∧
      (build_base_roles 6).count "狼人" = (if 6 = 5 then 1 else 2) ∧
      (build_base_roles 6).count "預言家" = 1 ∧
      (build_base_roles 6).count "醫生" = 1 ∧
      (build_base_roles 6).count "村民" = 6 - ((if 6 = 5 then 1 else 2) + 2)) ∧
    (build_base_roles 9).count "狼人" = Nat.max 1 (9 / 4) :=
  ⟨(spec_C9_build_base_roles 6).1 (by decide) (by decide),
   (spec_C9_build_base_roles 9).2 (by omega)⟩

-- ===== C6 =====

/-- C6: check_game_end computes W = living werewolves and G = living
non-werewolves; it declares a good-faction win iff W = 0 and a
werewolf-faction win iff W >= 1 and W >= G; on either win it emits the
win announcement, cancels the room's timers and removes the room from
the registry; otherwise it is a no-op returning false. -/
theorem spec_C6_win_evaluator (room : GameRoom) (rooms : Registry) (sched : Sched)
    (e : Option String) :
    ((check_game_end room rooms sched e).1 = true ↔
      ((livingWolves room).length = 0 ∨
        (1 ≤ (livingWolves room).length ∧
          (livingGood room).length ≤ (livingWolves room).length))) ∧
    ((livingWolves room).length = 0 →
      (check_game_end room rooms sched e).2.2.2.2 =
        [(e.getD room.room_id, "🎉 遊戲結束：好人獲勝！")]) ∧
    (1 ≤ (livingWolves room).length → (livingGood room).length ≤ (livingWolves room).length →
      (check_game_end room rooms sched e).2.2.2.2 =
        [(e.getD room.room_id, "💀 遊戲結束：狼人獲勝！")]) ∧
    ((check_game_end room rooms sched e).1 = true →
      regGet (check_game_end room rooms sched e).2.2.1 room.room_id = none ∧
      (∀ j, room.n_job_id = some j ∨ room.d_job_id = some j →
        ¬ j ∈ (check_game_end room rooms sched e).2.2.2.1.jobs)) ∧
    ((check_game_end room rooms sched e).1 = false →
      check_game_end room rooms sched e = (false, room, rooms, sched, [])) := by
  by_cases hc : (livingWolves room).length = 0 ∨
      (livingGood room).length ≤ (livingWolves room).length
  · have hrhs : (livingWolves room).length = 0 ∨
        (1 ≤ (livingWolves room).length ∧
          (livingGood room).length ≤ (livingWolves room).length) := by
      rcases hc with h | h
      · exact Or.inl h
      · by_cases h0 : (livingWolves room).length = 0
        · exact Or.inl h0
        · exact Or.inr ⟨by omega, h⟩
    refine ⟨?_, ?_, ?_, ?_, ?_⟩
    · simp only [check_game_end, hc, if_true]
      exact iff_of_true trivial hrhs
    · intro h0
      simp [check_game_end, hc, h0]
    · intro h1 hg
      have h0 : ¬ (livingWolves room).length = 0 := by omega
      simp [check_game_end, hc, h0, hg]
    · intro _
      refine ⟨?_, fun j hj => ?_⟩
      · simp only [check_game_end, hc, if_true]
        exact regGet_regPop_self rooms room.room_id
      · simp only [check_game_end, hc, if_true]
        exact clear_schedules_not_mem room sched j hj
    · intro hf
      simp only [check_game_end, hc, if_true] at hf
      exact Bool.noConfusion hf
  · have hW : ¬ (livingWolves room).length = 0 := fun h => hc (Or.inl h)
    have hG : ¬ (livingGood room).length ≤ (livingWolves room).length :=
      fun h => hc (Or.inr h)
    have hc2 : ¬ ((livingWolves room).length = 0 ∨
        (1 ≤ (livingWolves room).length ∧
          (livingGood room).length ≤ (livingWolves room).length)) := by
      intro hr
      rcases hr with h | ⟨_, h⟩
      · exact hW h
      · exact hG h
    refine ⟨?_, ?_, ?_, ?_, ?_⟩
    · simp only [check_game_end, hc, if_false]
      constructor
      · intro hf; exact Bool.noConfusion hf
      · intro hr; exact absurd hr hc2
    · intro h0; exact absurd (Or.inl h0) hc
    · intro h1 hg; exact absurd (Or.inr hg) hc
    · intro ht
      simp only [check_game_end, hc, if_false] at ht
      exact Bool.noConfusion ht
    · intro _
      simp only [check_game_end, hc, if_false]

/-- Witness: in roomC6 one wolf and one villager live, so W = G = 1 and
the werewolf faction wins; the room leaves the registry and its armed
night timer is cancelled. -/
theorem spec_C6_witness :
    (check_game_end roomC6 regC6 sched0 none).1 = true ∧
    (check_game_end roomC6 regC6 sched0 none).2.2.2.2 =
      [("R6", "💀 遊戲結束：狼人獲勝！")] ∧
    regGet (check_game_end roomC6 regC6 sched0 none).2.2.1 "R6" = none := by
  have h := spec_C6_win_evaluator roomC6 regC6 sched0 none
  have hW : (livingWolves roomC6).length = 1 := by decide
  have hG : (livingGood roomC6).length = 1 := by decide
  have hend : (check_game_end roomC6 regC6 sched0 none).1 = true :=
    h.1.mpr (Or.inr ⟨by omega, by omega⟩)
  refine ⟨hend, ?_, ?_⟩
  · have := h.2.2.1 (by omega) (by omega)
    simpa using this
  · exact (h.2.2.2.1 hend).1

-- ===== C8 =====

/-- C8: a fired deadline callback whose room no longer exists, or whose
room is no longer in the expected phase, changes no state and emits no
notification. -/
theorem spec_C8_stale_timer_noop (rid : String) (rooms : Registry) (sched : Sched) (i : Nat) :
    (regGet rooms rid = none →
      night_timeout_job rid rooms sched i = (rooms, sched, []) ∧
      day_timeout_job rid rooms sched i = some (rooms, sched, [])) ∧
    (∀ room, regGet rooms rid = some room → ¬ room.phase = "night" →
      night_timeout_job rid rooms sched i = (rooms, sched, [])) ∧
    (∀ room, regGet rooms rid = some room → ¬ room.phase = "day" →
      day_timeout_job rid rooms sched i = some (rooms, sched, [])) := by
  refine ⟨fun h => ⟨?_, ?_⟩, fun room h hp => ?_, fun room h hp => ?_⟩
  · simp [night_timeout_job, h]
  · simp [day_timeout_job, h]
  · simp [night_timeout_job, h, hp]
  · simp [day_timeout_job, h, hp]

/-- Witness: a night-deadline fire on a room already in day phase, a
day-deadline fire on a room still in night phase, and both fires on a
missing room, are all observable no-ops. -/
theorem spec_C8_witness :
    night_timeout_job "R8" regC8 sched0 0 = (regC8, sched0, []) ∧
    day_timeout_job "R" regC2 schedC2 0 = some (regC2, schedC2, []) ∧
    night_timeout_job "nope" regC8 sched0 0 = (regC8, sched0, []) := by
  refine ⟨?_, ?_, ?_⟩
  · exact (spec_C8_stale_timer_noop "R8" regC8 sched0 0).2.1 roomDayC8 (by decide) (by decide)
  · exact (spec_C8_stale_timer_noop "R" regC2 schedC2 0).2.2 roomNightC2 (by decide) (by decide)
  · exact ((spec_C8_stale_timer_noop "nope" regC8 sched0 0).1 (by decide)).1

-- ===== C3 =====

/-- C3: during night resolution the witch heal negates the (post-doctor)
wolf kill and consumes the heal charge exactly when the heal flag was set
this night, the charge remains, the kill target is non-null and the kill
target is not the witch's own id; when the kill target is the witch
herself nothing is negated and no charge is consumed, whatever the
charge state; the room's resulting witch_heal_left is the step's output. -/
theorem spec_C3_witch_heal (room : GameRoom) (i : Nat) (e : Option String) :
    ((wolfTargetPostWitch room i = (none, false) ∧
        room.night_flags.witch_heal_left = true) ↔
      (room.night_flags.witch_save_flag = true ∧
        room.night_flags.witch_heal_left = true ∧
        ¬ wolfTargetPostDoctor room i = none ∧
        ¬ wolfTargetPostDoctor room i = room.night_flags.witch_uid)) ∧
    (∀ u, wolfTargetPostDoctor room i = some u →
      room.night_flags.witch_uid = some u →
      wolfTargetPostWitch room i = (some u, room.night_flags.witch_heal_left)) ∧
    (resolve_night_core room i e).1.night_flags.witch_heal_left =
      (wolfTargetPostWitch room i).2 := by
  refine ⟨?_, ?_, rfl⟩
  · cases hs : room.night_flags.witch_save_flag with
    | false =>
      cases hh : room.night_flags.witch_heal_left <;>
        simp [wolfTargetPostWitch, witchHealStep, hs, hh]
    | true =>
      cases hh : room.night_flags.witch_heal_left with
      | false => simp [wolfTargetPostWitch, witchHealStep, hs, hh]
      | true =>
        cases ht : wolfTargetPostDoctor room i with
        | none => simp [wolfTargetPostWitch, witchHealStep, hs, hh, ht]
        | some u =>
          by_cases hw : some u = room.night_flags.witch_uid
          · simp [wolfTargetPostWitch, witchHealStep, hs, hh, ht, ← hw]
          · simp [wolfTargetPostWitch, witchHealStep, hs, hh, ht, hw]
  · intro u hu hw
    simp [wolfTargetPostWitch, witchHealStep, hu, hw]

/-- Witness: in roomC3 the sole wolf nomination is the witch herself and
she used the heal, so the kill stands and the charge survives. -/
theorem spec_C3_witness :
    wolfTargetPostWitch roomC3 0 = (some "wi", true) ∧
    (resolve_night_core roomC3 0 none).1.night_flags.witch_heal_left = true := by
  have h := spec_C3_witch_heal roomC3 0 none
  have h2 := h.2.1 "wi" (by decide) (by decide)
  refine ⟨by simpa [roomC3, emptyFlags] using h2, ?_⟩
  rw [h.2.2, h2]
  rfl

-- ===== C4 =====

/-- C4: during night resolution, a set poison target with a remaining
charge dies and the charge is consumed independently of the wolf-kill
outcome (in particular a negated wolf kill does not block the poison
kill on the same player), and the death list is free of duplicate
player ids. -/
theorem spec_C4_witch_poison (room : GameRoom) (i : Nat) (e : Option String) :
    ((resolve_night_core room i e).1.night_flags.witch_poison_left =
      (poisonStep room.night_flags.witch_poison_uid room.night_flags.witch_poison_left).2) ∧
    ((poisonStep room.night_flags.witch_poison_uid room.night_flags.witch_poison_left).2 =
      (if room.night_flags.witch_poison_uid.isSome ∧ room.night_flags.witch_poison_left
       then false else room.night_flags.witch_poison_left)) ∧
    (∀ u, room.night_flags.witch_poison_uid = some u →
      room.night_flags.witch_poison_left = true →
      aliveInList room.players u = true →
      aliveInList (resolve_night_core room i e).1.players u = false) ∧
    ((resolve_night_core room i e).2.1.map (fun p => p.user_id)).Nodup := by
  refine ⟨rfl, ?_, ?_, ?_⟩
  · unfold poisonStep
    split <;> rfl
  · intro u hp hl _
    have hps : poisonStep room.night_flags.witch_poison_uid
        room.night_flags.witch_poison_left = (some u, false) := by
      simp [poisonStep, hp, hl]
    simp only [resolve_night_core, hps]
    by_cases hw : some u = (wolfTargetPostWitch room i).1
    · rw [← hw]
      simp [aliveInList_killIfAlive_self]
    · simp only [hw]
      simp [aliveInList_killIfAlive_self]
  · simp only [resolve_night_core]
    cases hwt : (wolfTargetPostWitch room i).1 with
    | none =>
      cases hps : (poisonStep room.night_flags.witch_poison_uid
          room.night_flags.witch_poison_left).1 with
      | none => simp
      | some u =>
        rcases killIfAlive_snd_uid room.players u with h | ⟨d, hd, _⟩
        · simp [h]
        · simp [hd]
    | some w =>
      cases hps : (poisonStep room.night_flags.witch_poison_uid
          room.night_flags.witch_poison_left).1 with
      | none =>
        rcases killIfAlive_snd_uid room.players w with h | ⟨d, hd, _⟩
        · simp [h]
        · simp [hd]
      | some u =>
        by_cases hne : some u = some w
        · rcases killIfAlive_snd_uid room.players w with h | ⟨d, hd, _⟩
          · simp [hne, h]
          · simp [hne, hd]
        · have huw : ¬ w = u := by
            intro hc
            exact hne (by rw [hc])
          rcases killIfAlive_snd_uid room.players w with h | ⟨d, hd, hdu⟩
          · rcases killIfAlive_snd_uid (killIfAlive room.players w).1 u
              with h2 | ⟨d2, hd2, hdu2⟩
            · simp [hne, h, h2]
            · simp [hne, h, hd2]
          · rcases killIfAlive_snd_uid (killIfAlive room.players w).1 u
              with h2 | ⟨d2, hd2, hdu2⟩
            · simp [hne, hd, h2]
            · simp [hne, hd, hd2, hdu, hdu2, huw]

/-- Witness: in roomC4 the poison on v1 fires with no wolf kill at all:
v1 dies, the charge is consumed, and the death list has no duplicate. -/
theorem spec_C4_witness :
    aliveInList (resolve_night_core roomC4 0 none).1.players "v1" = false ∧
    (resolve_night_core roomC4 0 none).1.night_flags.witch_poison_left = false ∧
    ((resolve_night_core roomC4 0 none).2.1.map (fun p => p.user_id)).Nodup := by
  have h := spec_C4_witch_poison roomC4 0 none
  refine ⟨h.2.2.1 "v1" (by decide) (by decide) (by decide), ?_, h.2.2.2⟩
  rw [h.1]
  decide

-- ===== C7 =====

/-- C7: a doctor save naming the previous night's saved target is
rejected with a notice and leaves all state unchanged; a second
self-save attempt is likewise rejected; a first self-save is accepted
and marks the once-per-game self-heal as used; and night resolution
rolls the current save target into doctor_last_saved_uid for the next
night's anti-repeat check. -/
theorem spec_C7_doctor_rules (rooms : Registry) :
    (∀ uid text room c arg target,
      ensure_in_room uid rooms = some room →
      room.started = true → room.phase = "night" →
      (getPlayer room uid).alive = true → (getPlayer room uid).role = some "醫生" →
      pySplitMax1 text = [c, arg] →
      firstAliveNamed room (pyStrip arg) = some target →
      room.night_flags.doctor_last_saved_uid = some target.user_id →
      pm_doctor uid text rooms = (rooms, [(uid, "不得連續兩晚救同一人。")])) ∧
    (∀ uid text room c arg target,
      ensure_in_room uid rooms = some room →
      room.started = true → room.phase = "night" →
      (getPlayer room uid).alive = true → (getPlayer room uid).role = some "醫生" →
      pySplitMax1 text = [c, arg] →
      firstAliveNamed room (pyStrip arg) = some target →
      ¬ room.night_flags.doctor_last_saved_uid = some target.user_id →
      target.user_id = uid → uid ∈ room.night_flags.doctor_selfheal_used →
      pm_doctor uid text rooms = (rooms, [(uid, "你的自救次數已用完。")])) ∧
    (∀ uid text room c arg target,
      ensure_in_room uid rooms = some room →
      room.started = true → room.phase = "night" →
      (getPlayer room uid).alive = true → (getPlayer room uid).role = some "醫生" →
      pySplitMax1 text = [c, arg] →
      firstAliveNamed room (pyStrip arg) = some target →
      ¬ room.night_flags.doctor_last_saved_uid = some target.user_id →
      target.user_id = uid → ¬ uid ∈ room.night_flags.doctor_selfheal_used →
      ∃ room1, pm_doctor uid text rooms =
          (regSet rooms room.room_id room1, [(uid, "已標記救援：" ++ target.name)]) ∧
        room1.night_flags.doctor_saved_uid = some uid ∧
        uid ∈ room1.night_flags.doctor_selfheal_used) ∧
    (∀ room i e, (resolve_night_core room i e).1.night_flags.doctor_last_saved_uid =
      room.night_flags.doctor_saved_uid) := by
  refine ⟨?_, ?_, ?_, fun room i e => rfl⟩
  · intro uid text room c arg target hin hs hp ha hr hsplit hfind hlast
    simp [pm_doctor, hin, hs, hp, ha, hr, hsplit, hfind, hlast]
  · intro uid text room c arg target hin hs hp ha hr hsplit hfind hlast htu hused
    have hlast2 : ¬ room.night_flags.doctor_last_saved_uid = some uid := by
      rw [← htu]; exact hlast
    simp [pm_doctor, hin, hs, hp, ha, hr, hsplit, hfind, hlast, hlast2, htu, hused]
  · intro uid text room c arg target hin hs hp ha hr hsplit hfind hlast htu hused
    have hlast2 : ¬ room.night_flags.doctor_last_saved_uid = some uid := by
      rw [← htu]; exact hlast
    refine ⟨{ room with
      night_flags := { room.night_flags with
        doctor_saved_uid := some target.user_id,
        doctor_selfheal_used := room.night_flags.doctor_selfheal_used ++ [uid] } },
      ?_, ?_, ?_⟩
    · simp [pm_doctor, hin, hs, hp, ha, hr, hsplit, hfind, hlast, hlast2, htu, hused]
    · simp [htu]
    · simp

/-- Witness: in roomC7 the doctor repeats last night's target and is
rejected; in roomC7b a second self-save is rejected; and resolving the
night in roomC7 records the (empty) save as last saved. -/
theorem spec_C7_witness :
    pm_doctor "dr" "救 小明" regC7 = (regC7, [("dr", "不得連續兩晚救同一人。")]) ∧
    pm_doctor "dr" "救 醫醫" regC7b = (regC7b, [("dr", "你的自救次數已用完。")]) ∧
    (resolve_night_core roomC7 0 none).1.night_flags.doctor_last_saved_uid =
      roomC7.night_flags.doctor_saved_uid := by
  have h := spec_C7_doctor_rules regC7
  have hb := spec_C7_doctor_rules regC7b
  refine ⟨?_, ?_, (spec_C7_doctor_rules regC7).2.2.2 roomC7 0 none⟩
  · exact h.1 "dr" "救 小明" roomC7 "救" "小明" villP1 (by decide) (by decide) (by decide)
      (by decide) (by decide) (by decide) (by decide) (by decide)
  · exact hb.2.1 "dr" "救 醫醫" roomC7b "救" "醫醫" doctorP (by decide) (by decide)
      (by decide) (by decide) (by decide) (by decide) (by decide) (by decide)
      (by decide) (by decide)

-- ===== list lemmas for the plurality computation =====

theorem le_foldl_max (l : List Nat) (a : Nat) : a ≤ l.foldl Nat.max a := by
  induction l generalizing a with
  | nil => simp [List.foldl]
  | cons x xs ih =>
    calc a ≤ Nat.max a x := Nat.le_max_left a x
    _ ≤ xs.foldl Nat.max (Nat.max a x) := ih (Nat.max a x)

theorem mem_le_foldl_max (l : List Nat) (a x : Nat) (h : x ∈ l) :
    x ≤ l.foldl Nat.max a := by
  induction l generalizing a with
  | nil => cases h
  | cons y ys ih =>
    rcases List.mem_cons.mp h with rfl | h
    · calc x ≤ Nat.max a x := Nat.le_max_right a x
      _ ≤ ys.foldl Nat.max (Nat.max a x) := le_foldl_max ys (Nat.max a x)
    · exact ih (Nat.max a y) h

theorem foldl_max_mem (l : List Nat) (a : Nat) :
    l.foldl Nat.max a = a ∨ l.foldl Nat.max a ∈ l := by
  induction l generalizing a with
  | nil => exact Or.inl rfl
  | cons x xs ih =>
    rcases ih (Nat.max a x) with h | h
    · show xs.foldl Nat.max (Nat.max a x) = a ∨ xs.foldl Nat.max (Nat.max a x) ∈ x :: xs
      rw [h]
      rcases Nat.le_total a x with hax | hax
      · have hx : Nat.max a x = x := Nat.max_eq_right hax
        rw [hx]
        exact Or.inr (List.mem_cons_self x xs)
      · have ha : Nat.max a x = a := Nat.max_eq_left hax
        rw [ha]
        exact Or.inl rfl
    · exact Or.inr (List.mem_cons_of_mem x h)

theorem mem_dedupFirst_aux (l : List String) (acc : List String) (x : String) :
    (x ∈ l.foldl (fun acc y => if y ∈ acc then acc else acc ++ [y]) acc ↔
      x ∈ acc ∨ x ∈ l) := by
  induction l generalizing acc with
  | nil => simp
  | cons y ys ih =>
    simp only [List.foldl]
    by_cases hy : y ∈ acc
    · rw [if_pos hy, ih]
      constructor
      · rintro (h | h)
        · exact Or.inl h
        · exact Or.inr (List.mem_cons_of_mem y h)
      · rintro (h | h)
        · exact Or.inl h
        · rcases List.mem_cons.mp h with rfl | h
          · exact Or.inl hy
          · exact Or.inr h
    · rw [if_neg hy, ih]
      simp only [List.mem_append, List.mem_cons, List.mem_singleton]
      tauto

theorem mem_dedupFirst (l : List String) (x : String) : x ∈ dedupFirst l ↔ x ∈ l := by
  unfold dedupFirst
  rw [mem_dedupFirst_aux]
  simp

theorem tally_snd (l : List String) (e : String × Nat) (h : e ∈ tallyInOrder l) :
    e.2 = l.count e.1 := by
  unfold tallyInOrder at h
  rcases List.mem_map.mp h with ⟨k, _, rfl⟩
  rfl

theorem dayLosers_count (room : GameRoom) (t : String) (h : t ∈ dayLosers room) :
    (room.votes.map (fun v => v.2)).count t =
      maxTallyCount (tallyInOrder (room.votes.map (fun v => v.2))) := by
  unfold dayLosers at h
  rcases List.mem_map.mp h with ⟨e, he, rfl⟩
  have h2 := List.mem_filter.mp he
  have h3 := tally_snd _ _ h2.1
  have h4 : e.2 = maxTallyCount (tallyInOrder (room.votes.map (fun v => v.2))) := by
    simpa using h2.2
  rw [← h3]
  exact h4

theorem dayLosers_nonempty (room : GameRoom) (h : ¬ room.votes = []) :
    ¬ dayLosers room = [] := by
  have hvals : ¬ (room.votes.map (fun v => v.2)) = [] := by simpa using h
  obtain ⟨k0, hk0⟩ : ∃ k, k ∈ room.votes.map (fun v => v.2) :=
    List.exists_mem_of_ne_nil _ hvals
  have hk0d : k0 ∈ dedupFirst (room.votes.map (fun v => v.2)) :=
    (mem_dedupFirst _ k0).mpr hk0
  have hmem0 : (k0, (room.votes.map (fun v => v.2)).count k0) ∈
      tallyInOrder (room.votes.map (fun v => v.2)) :=
    List.mem_map.mpr ⟨k0, hk0d, rfl⟩
  have hcount : 1 ≤ (room.votes.map (fun v => v.2)).count k0 :=
    List.count_pos_iff.mpr hk0
  have hle : (room.votes.map (fun v => v.2)).count k0 ≤
      maxTallyCount (tallyInOrder (room.votes.map (fun v => v.2))) := by
    unfold maxTallyCount
    exact mem_le_foldl_max _ 0 _ (List.mem_map.mpr ⟨_, hmem0, rfl⟩)
  rcases foldl_max_mem ((tallyInOrder (room.votes.map (fun v => v.2))).map (fun e => e.2)) 0
    with h0 | hm
  · have h00 : maxTallyCount (tallyInOrder (room.votes.map (fun v => v.2))) = 0 := h0
    omega
  · rcases List.mem_map.mp hm with ⟨e, he, heq⟩
    intro hnil
    have hmem : e.1 ∈ dayLosers room := by
      unfold dayLosers
      refine List.mem_map.mpr ⟨e, List.mem_filter.mpr ⟨he, ?_⟩, rfl⟩
      simp [maxTallyCount, heq]
    rw [hnil] at hmem
    cases hmem

theorem schedule_night_room_players (room : GameRoom) (sched : Sched) (m : Option Nat) :
    (schedule_night_timeout room sched m).1.players = room.players := rfl

theorem schedule_night_room_phase (room : GameRoom) (sched : Sched) (m : Option Nat) :
    (schedule_night_timeout room sched m).1.phase = room.phase := rfl

theorem schedule_night_room_votes (room : GameRoom) (sched : Sched) (m : Option Nat) :
    (schedule_night_timeout room sched m).1.votes = room.votes := rfl

-- ===== C5 =====

/-- C5: day resolution with an empty vote map eliminates nobody and moves
to night; with a non-empty vote map one player among the maximum-count
targets is always eliminated (the argmax list is never empty, so a tie
still produces an elimination, never a no-op), all other players are
untouched, and the vote map is cleared. -/
theorem spec_C5_day_resolution (room : GameRoom) (rooms : Registry) (sched : Sched) (i : Nat) :
    (room.votes = [] →
      (∀ r, auto_endday room rooms sched i = some r →
        r.1.players = room.players ∧ r.1.phase = "night" ∧ r.1.votes = room.votes) ∧
      ¬ auto_endday room rooms sched i = none) ∧
    (¬ room.votes = [] →
      ∃ u, (dayLosers room).get? (i % (dayLosers room).length) = some u) ∧
    (∀ t, t ∈ dayLosers room →
      (room.votes.map (fun v => v.2)).count t =
        maxTallyCount (tallyInOrder (room.votes.map (fun v => v.2)))) ∧
    (∀ victim_uid victim0,
      (dayLosers room).get? (i % (dayLosers room).length) = some victim_uid →
      findPlayer room victim_uid = some victim0 →
      ¬ auto_endday room rooms sched i = none ∧
      (∀ r, auto_endday room rooms sched i = some r →
        victim_uid ∈ dayLosers room ∧
        aliveInList r.1.players victim_uid = false ∧
        (∀ v, ¬ v = victim_uid →
          r.1.players.find? (fun p => p.user_id = v) =
            room.players.find? (fun p => p.user_id = v)) ∧
        r.1.votes = [])) := by
  refine ⟨?_, ?_, fun t ht => dayLosers_count room t ht, ?_⟩
  · intro hv
    have hie : room.votes.isEmpty = true := by simp [hv]
    constructor
    · intro r hr
      simp only [auto_endday, hie, if_true] at hr
      obtain rfl := Option.some_inj.mp hr
      exact ⟨rfl, rfl, rfl⟩
    · simp [auto_endday, hie]
  · intro hv
    have hne := dayLosers_nonempty room hv
    have hlen : 0 < (dayLosers room).length := List.length_pos.mpr hne
    have hlt : i % (dayLosers room).length < (dayLosers room).length :=
      Nat.mod_lt i hlen
    exact ⟨_, List.get?_eq_get hlt⟩
  · intro victim_uid victim0 hL hF
    have hvne : ¬ room.votes = [] := by
      intro hv
      have hdl : dayLosers room = [] := by
        simp [dayLosers, tallyInOrder, dedupFirst, maxTallyCount, hv]
      rw [hdl] at hL
      simp at hL
    have hie : room.votes.isEmpty = false := by
      cases hv : room.votes with
      | nil => exact absurd hv hvne
      | cons a l => rfl
    have hmem : victim_uid ∈ dayLosers room := List.get?_mem hL
    constructor
    · simp only [auto_endday, hie, Bool.false_eq_true, if_false, hL, hF]
      split <;> split <;> simp
    · intro r hr
      simp only [auto_endday, hie, Bool.false_eq_true, if_false, hL, hF] at hr
      split at hr <;> split at hr <;>
        · obtain rfl := Option.some_inj.mp hr
          refine ⟨hmem, ?_, ?_, ?_⟩ <;>
          first
            | (rw [check_game_end_room_players]
               exact aliveInList_setDeadFirst_self room.players victim_uid)
            | (rw [schedule_night_room_players]
               exact aliveInList_setDeadFirst_self room.players victim_uid)
            | (rw [check_game_end_room_votes])
            | (rw [schedule_night_room_votes])
            | (intro v hv2
               first
                 | (rw [check_game_end_room_players]
                    exact find?_setDeadFirst_ne room.players victim_uid v hv2)
                 | (rw [schedule_night_room_players]
                    exact find?_setDeadFirst_ne room.players victim_uid v hv2))

/-- Witness: in roomC5 both villagers voted for the wolf; the wolf is the
unique plurality target and is eliminated, everyone else is untouched,
and the vote map is cleared. -/
theorem spec_C5_witness :
    (∃ u, (dayLosers roomC5).get? (0 % (dayLosers roomC5).length) = some u) ∧
    ¬ auto_endday roomC5 regC5 sched0 0 = none ∧
    (∀ r, auto_endday roomC5 regC5 sched0 0 = some r →
      "w1" ∈ dayLosers roomC5 ∧
      aliveInList r.1.players "w1" = false ∧
      (∀ v, ¬ v = "w1" →
        r.1.players.find? (fun p => p.user_id = v) =
          roomC5.players.find? (fun p => p.user_id = v)) ∧
      r.1.votes = []) := by
  have h := spec_C5_day_resolution roomC5 regC5 sched0 0
  have hb := h.2.2.2 "w1" wolfP (by decide) (by decide)
  exact ⟨h.2.1 (by decide), hb.1, hb.2⟩

-- ===== C10 =====

/-- C10: a pending hunter shot is accepted with no phase check at all
(the statement carries no hypothesis on the room's phase): whenever the
shooter's room exists and the shooter is the recorded pending-shot
player, naming a living target eliminates exactly that one player,
clears the pending shot, and leaves hunter_pending_uid = none even when
the victim is themselves a Hunter — no chained retaliation is armed. -/
theorem spec_C10_hunter_shot (rooms : Registry) (sched : Sched) (uid text : String)
    (room : GameRoom) (c arg : String) (victim : Player)
    (hin : ensure_in_room uid rooms = some room)
    (hpend : room.hunter_pending_uid = some uid)
    (hsplit : pySplitMax1 text = [c, arg])
    (hfind : firstAliveNamed room (pyStrip arg) = some victim) :
    ∃ room2, (pm_hunter_shoot uid text rooms sched).1 = some room2 ∧
      aliveInList room2.players victim.user_id = false ∧
      (∀ v, ¬ v = victim.user_id →
        room2.players.find? (fun p => p.user_id = v) =
          room.players.find? (fun p => p.user_id = v)) ∧
      room2.hunter_pending_uid = none := by
  refine ⟨(check_game_end { room with
      players := setDeadFirst room.players victim.user_id,
      hunter_pending_uid := none }
    (regSet rooms room.room_id { room with
      players := setDeadFirst room.players victim.user_id,
      hunter_pending_uid := none }) sched none).2.1, ?_, ?_, ?_, ?_⟩
  · simp [pm_hunter_shoot, hin, hpend, hsplit, hfind]
  · rw [check_game_end_room_players]
    exact aliveInList_setDeadFirst_self room.players victim.user_id
  · intro v hv
    rw [check_game_end_room_players]
    exact find?_setDeadFirst_ne room.players victim.user_id v hv
  · rw [check_game_end_room_pending]

/-- Witness: the pending dead hunter shoots the living hunter 獵乙 during
the day phase; 獵乙 dies, everyone else is untouched, and no new pending
shot is armed even though the victim is a Hunter. -/
theorem spec_C10_witness :
    ∃ room2, (pm_hunter_shoot "hu" "開槍 獵乙" regC10 sched0).1 = some room2 ∧
      aliveInList room2.players "hu2" = false ∧
      (∀ v, ¬ v = "hu2" →
        room2.players.find? (fun p => p.user_id = v) =
          roomC10.players.find? (fun p => p.user_id = v)) ∧
      room2.hunter_pending_uid = none :=
  spec_C10_hunter_shot regC10 sched0 "hu" "開槍 獵乙" roomC10 "開槍" "獵乙" hunterP2
    (by decide) (by decide) (by decide) (by decide)

-- ===== C2 =====

/-- When night resolution ends with the room in day phase (the game did
not end), the room object and the scheduler come from the day-timer
arming on the post-core room, and the registry holds the final room. -/
theorem resolve_day_branch (room : GameRoom) (rooms : Registry) (sched : Sched) (i : Nat)
    (e : Option String) (h1 : room.phase = "night")
    (hd : (resolve_night_and_start_day room rooms sched i e).1.phase = "day") :
    (resolve_night_and_start_day room rooms sched i e).1 =
      (schedule_day_timeout { (resolve_night_core room i e).1 with phase := "day" }
        sched none).1 ∧
    (resolve_night_and_start_day room rooms sched i e).2.2.1 =
      (schedule_day_timeout { (resolve_night_core room i e).1 with phase := "day" }
        sched none).2.1 ∧
    regGet (resolve_night_and_start_day room rooms sched i e).2.1 room.room_id =
      some (resolve_night_and_start_day room rooms sched i e).1 := by
  by_cases hce : (check_game_end (resolve_night_core room i e).1
      (regSet rooms (resolve_night_core room i e).1.room_id (resolve_night_core room i e).1)
      sched e).1 = true
  · exfalso
    have hph : (resolve_night_and_start_day room rooms sched i e).1.phase = room.phase := by
      simp only [resolve_night_and_start_day, hce, if_true]
      rw [check_game_end_room_phase, resolve_core_phase]
    rw [hph, h1] at hd
    exact absurd hd (by decide)
  · refine ⟨?_, ?_, ?_⟩ <;>
      simp only [resolve_night_and_start_day, hce, Bool.false_eq_true, if_false]
    exact regGet_regSet_self _ _ _

/-- C2 counterexample: the claim says a host force-resolution first
cancels the current phase's timer, so at most one deadline timer is ever
scheduled.  In roomNightC2 (night phase, night timer armed) force_settle
resolves the night and arms the day timer WITHOUT cancelling the night
job: afterwards both day-R and night-R are scheduled simultaneously. -/
theorem spec_C2_counterexample :
    (match force_settle roomNightC2 regC2 schedC2 0 with
      | some r => r.2.2.1.jobs
      | none => []) = ["day-R", "night-R"] := by
  decide

/-- C2 amended: a host force-resolution during night does NOT cancel the
night timer; it remains scheduled exactly as before alongside the newly
armed day timer, and the stale night job's later fire is a no-op thanks
to the phase guard, so no double resolution occurs. -/
theorem spec_C2_amended (room : GameRoom) (rooms : Registry) (sched : Sched) (i : Nat)
    (res : GameRoom × Registry × Sched × List Msg)
    (h1 : room.phase = "night")
    (h2 : force_settle room rooms sched i = some res)
    (h3 : res.1.phase = "day")
    (h4 : ¬ room.d_job_id = some ("night-" ++ room.room_id))
    (h5 : ¬ ("night-" ++ room.room_id) = ("day-" ++ room.room_id)) :
    (("night-" ++ room.room_id) ∈ res.2.2.1.jobs ↔ ("night-" ++ room.room_id) ∈ sched.jobs) ∧
    ("day-" ++ room.room_id) ∈ res.2.2.1.jobs ∧
    night_timeout_job room.room_id res.2.1 res.2.2.1 i = (res.2.1, res.2.2.1, []) := by
  by_cases hrp : (resolve_night_and_start_day room rooms sched i none).1.phase = "day"
  · simp only [force_settle, h1, eq_self_iff_true, if_true, hrp] at h2
    obtain rfl := Option.some_inj.mp h2
    have hdb := resolve_day_branch room rooms sched i none h1 hrp
    have hrid : (resolve_night_and_start_day room rooms sched i none).1.room_id =
        room.room_id := by
      rw [hdb.1, schedule_day_room_id]
      exact resolve_core_room_id room i none
    have hdjob : (resolve_night_and_start_day room rooms sched i none).1.d_job_id =
        some ("day-" ++ room.room_id) := by
      rw [hdb.1, schedule_day_room_djob]
      have hc : ({ (resolve_night_core room i none).1 with phase := "day" } :
          GameRoom).room_id = room.room_id := resolve_core_room_id room i none
      rw [hc]
    refine ⟨?_, ?_, ?_⟩
    · have hm2 := mem_schedule_day_jobs (resolve_night_and_start_day room rooms sched i none).1
        (resolve_night_and_start_day room rooms sched i none).2.2.1 none
        ("night-" ++ room.room_id)
        (by rw [hrid]; exact h5)
        (by rw [hdjob]; intro hh; exact h5 (Option.some_inj.mp hh).symm)
      have hm1 := mem_schedule_day_jobs
        { (resolve_night_core room i none).1 with phase := "day" } sched none
        ("night-" ++ room.room_id) h5 h4
      rw [hm2, hdb.2.1, hm1]
    · have := dayJob_mem_schedule_day (resolve_night_and_start_day room rooms sched i none).1
        (resolve_night_and_start_day room rooms sched i none).2.2.1 none
      rw [hrid] at this
      exact this
    · have hget : regGet (regSet (resolve_night_and_start_day room rooms sched i none).2.1
          (schedule_day_timeout (resolve_night_and_start_day room rooms sched i none).1
            (resolve_night_and_start_day room rooms sched i none).2.2.1 none).1.room_id
          (schedule_day_timeout (resolve_night_and_start_day room rooms sched i none).1
            (resolve_night_and_start_day room rooms sched i none).2.2.1 none).1)
          room.room_id =
          some (schedule_day_timeout (resolve_night_and_start_day room rooms sched i none).1
            (resolve_night_and_start_day room rooms sched i none).2.2.1 none).1 := by
        have hsdid : (schedule_day_timeout
            (resolve_night_and_start_day room rooms sched i none).1
            (resolve_night_and_start_day room rooms sched i none).2.2.1 none).1.room_id =
            room.room_id := by
          rw [schedule_day_room_id, hrid]
        rw [hsdid]
        exact regGet_regSet_self _ _ _
      have hsdphase : (schedule_day_timeout
          (resolve_night_and_start_day room rooms sched i none).1
          (resolve_night_and_start_day room rooms sched i none).2.2.1 none).1.phase =
          "day" := by
        rw [schedule_day_room_phase, hrp]
      simp [night_timeout_job, hget, hsdphase]
  · simp only [force_settle, h1, eq_self_iff_true, if_true, hrp, if_false] at h2
    obtain rfl := Option.some_inj.mp h2
    exact absurd h3 hrp

/-- Witness for the amended C2 statement, instantiated at the concrete
counterexample room: after force_settle both timers are scheduled and the
stale night fire is a no-op. -/
theorem spec_C2_amended_witness :
    (("night-" ++ roomNightC2.room_id) ∈
        ((force_settle roomNightC2 regC2 schedC2 0).getD
          (roomNightC2, regC2, schedC2, [])).2.2.1.jobs ↔
      ("night-" ++ roomNightC2.room_id) ∈ schedC2.jobs) ∧
    ("day-" ++ roomNightC2.room_id) ∈
      ((force_settle roomNightC2 regC2 schedC2 0).getD
        (roomNightC2, regC2, schedC2, [])).2.2.1.jobs ∧
    night_timeout_job roomNightC2.room_id
        ((force_settle roomNightC2 regC2 schedC2 0).getD
          (roomNightC2, regC2, schedC2, [])).2.1
        ((force_settle roomNightC2 regC2 schedC2 0).getD
          (roomNightC2, regC2, schedC2, [])).2.2.1 0 =
      (((force_settle roomNightC2 regC2 schedC2 0).getD
          (roomNightC2, regC2, schedC2, [])).2.1,
        ((force_settle roomNightC2 regC2 schedC2 0).getD
          (roomNightC2, regC2, schedC2, [])).2.2.1, []) :=
  spec_C2_amended roomNightC2 regC2 schedC2 0
    ((force_settle roomNightC2 regC2 schedC2 0).getD (roomNightC2, regC2, schedC2, []))
    (by decide) (by decide) (by decide) (by decide) (by decide)

-- ===== C1 =====

/-- C1: every rejection of the enumerated kinds — wrong phase (including
a start on an already-started room), non-host issuing a host-only
command, unknown or dead target, exhausted charge, duplicate action
(including a repeated role swap and a repeated hunter shot), roster or
role-count violation — emits a notice to the issuer and leaves the
registry (hence every room: roster, phase, roles, votes, nominations,
night flags, pending hunter shot, timer bookkeeping) and the scheduler
unchanged; none of these rejections is a silent no-op.  The duplicate
role-swap conjuncts assume the registry key equals the room's id, the
invariant every creation and update in the code maintains. -/
theorem spec_C1_rejections (rooms : Registry) (sched : Sched) (i minutes : Nat)
    (shuffleU shuffleR : List String → List String) :
    (∀ uid text room, ensure_in_room uid rooms = some room →
      ¬ (room.started = true ∧ room.phase = "night") →
      pm_kill uid text rooms = (rooms, [(uid, "現在不是夜晚，或你未在房間。")]) ∧
      pm_seer uid text rooms = (rooms, [(uid, "現在不是夜晚，或你未在房間。")]) ∧
      pm_doctor uid text rooms = (rooms, [(uid, "現在不是夜晚，或你未在房間。")]) ∧
      pm_witch_heal uid rooms = (rooms, [(uid, "現在不是夜晚，或你未在房間。")]) ∧
      pm_witch_poison uid text rooms = (rooms, [(uid, "現在不是夜晚，或你未在房間。")])) ∧
    (∀ rid uid tname room, regGet rooms rid = some room → ¬ room.phase = "day" →
      cmd_vote rid uid tname rooms = (rooms, [(uid, "現在不是白天投票階段。")]) ∧
      cmd_endday rid uid rooms sched i = some (rooms, sched, [(uid, "現在不是白天結算階段。")])) ∧
    (∀ rid uid target room, regGet rooms rid = some room → uid = room.host_id →
      ¬ room.phase = "config" →
      cmd_swap rid uid target rooms = (rooms, [(uid, "現在不是換角階段。")]) ∧
      cmd_confirm_roles rid uid rooms sched shuffleU shuffleR =
        (rooms, sched, [(uid, "現在不是確認階段。請先「開始」。")])) ∧
    (∀ rid uid target room, regGet rooms rid = some room → ¬ uid = room.host_id →
      cmd_start rid uid rooms = (rooms, [(uid, "只有建房者可「開始」。")]) ∧
      cmd_swap rid uid target rooms = (rooms, [(uid, "僅建房者可換角。")]) ∧
      cmd_confirm_roles rid uid rooms sched shuffleU shuffleR =
        (rooms, sched, [(uid, "僅建房者可確認角色。")]) ∧
      cmd_reset rid uid rooms sched = (rooms, sched, [(uid, "僅建房者可重置。")]) ∧
      (room.started = true →
        cmd_extend rid uid minutes rooms sched = (rooms, sched, [(uid, "僅房主可延長。")]) ∧
        cmd_force rid uid rooms sched i = some (rooms, sched, [(uid, "僅房主可立即結算。")]))) ∧
    (∀ uid text room c arg, ensure_in_room uid rooms = some room →
      room.started = true → room.phase = "night" →
      pySplitMax1 text = [c, arg] → firstAliveNamed room (pyStrip arg) = none →
      ((getPlayer room uid).alive = true → (getPlayer room uid).role = some "狼人" →
        pm_kill uid text rooms = (rooms, [(uid, "找不到活著的「" ++ pyStrip arg ++ "」。")])) ∧
      ((getPlayer room uid).alive = true → (getPlayer room uid).role = some "預言家" →
        ¬ uid ∈ room.night_flags.seer_done_uids →
        pm_seer uid text rooms = (rooms, [(uid, "找不到活著的「" ++ pyStrip arg ++ "」。")])) ∧
      ((getPlayer room uid).alive = true → (getPlayer room uid).role = some "醫生" →
        pm_doctor uid text rooms = (rooms, [(uid, "找不到活著的「" ++ pyStrip arg ++ "」。")])) ∧
      ((getPlayer room uid).alive = true → (getPlayer room uid).role = some "女巫" →
        room.night_flags.witch_poison_left = true →
        pm_witch_poison uid text rooms =
          (rooms, [(uid, "找不到活著的「" ++ pyStrip arg ++ "」。")]))) ∧
    (∀ rid uid tname room, regGet rooms rid = some room → room.phase = "day" →
      room.players.any (fun p => p.user_id = uid) = true →
      (getPlayer room uid).alive = true →
      firstAliveNamed room tname = none →
      cmd_vote rid uid tname rooms = (rooms, [(uid, "找不到活著的「" ++ tname ++ "」。")])) ∧
    (∀ uid text room c arg, ensure_in_room uid rooms = some room →
      room.hunter_pending_uid = some uid →
      pySplitMax1 text = [c, arg] → firstAliveNamed room (pyStrip arg) = none →
      pm_hunter_shoot uid text rooms sched =
        (some room, rooms, sched, [(uid, "找不到活著的「" ++ pyStrip arg ++ "」。")])) ∧
    (∀ uid text room, ensure_in_room uid rooms = some room →
      room.started = true → room.phase = "night" →
      (getPlayer room uid).alive = true → (getPlayer room uid).role = some "女巫" →
      (room.night_flags.witch_heal_left = false →
        pm_witch_heal uid rooms = (rooms, [(uid, "你的解藥已用完。")])) ∧
      (room.night_flags.witch_poison_left = false →
        pm_witch_poison uid text rooms = (rooms, [(uid, "你的毒藥已用完。")]))) ∧
    (∀ uid text room c arg target, ensure_in_room uid rooms = some room →
      room.started = true → room.phase = "night" →
      (getPlayer room uid).alive = true → (getPlayer room uid).role = some "醫生" →
      pySplitMax1 text = [c, arg] → firstAliveNamed room (pyStrip arg) = some target →
      ¬ room.night_flags.doctor_last_saved_uid = some target.user_id →
      target.user_id = uid → uid ∈ room.night_flags.doctor_selfheal_used →
      pm_doctor uid text rooms = (rooms, [(uid, "你的自救次數已用完。")])) ∧
    (∀ uid text room, ensure_in_room uid rooms = some room →
      room.started = true → room.phase = "night" →
      (getPlayer room uid).alive = true → (getPlayer room uid).role = some "預言家" →
      uid ∈ room.night_flags.seer_done_uids →
      pm_seer uid text rooms = (rooms, [(uid, "本晚已查驗過了。")])) ∧
    (∀ uid text room c arg target, ensure_in_room uid rooms = some room →
      room.started = true → room.phase = "night" →
      (getPlayer room uid).alive = true → (getPlayer room uid).role = some "醫生" →
      pySplitMax1 text = [c, arg] → firstAliveNamed room (pyStrip arg) = some target →
      room.night_flags.doctor_last_saved_uid = some target.user_id →
      pm_doctor uid text rooms = (rooms, [(uid, "不得連續兩晚救同一人。")])) ∧
    (∀ rid uid room, regGet rooms rid = some room → uid = room.host_id →
      ¬ (MIN_P ≤ room.players.length ∧ room.players.length ≤ MAX_P) →
      cmd_start rid uid rooms = (rooms, [(uid, "目前人數 " ++
        toString room.players.length ++ "，需 " ++ toString MIN_P ++ "～" ++
        toString MAX_P ++ " 人。")])) ∧
    (∀ rid uid room, regGet rooms rid = some room → uid = room.host_id →
      room.phase = "config" → ¬ room.current_roles.length = room.players.length →
      cmd_confirm_roles rid uid rooms sched shuffleU shuffleR =
        (rooms, sched, [(uid, "角色數與玩家數不符，請確認後再試。")])) ∧
    (∀ rid uid room, regGet rooms rid = some room → room.room_id = rid →
      uid = room.host_id → room.phase = "config" →
      ("女巫" ∈ room.current_roles →
        cmd_swap rid uid "女巫" rooms = (rooms,
          [(uid, "換角失敗：" ++ "已有『女巫』，無法再換。" ++ "\n目前角色：" ++
            pretty_roles room.current_roles)])) ∧
      ("獵人" ∈ room.current_roles →
        cmd_swap rid uid "獵人" rooms = (rooms,
          [(uid, "換角失敗：" ++ "已有『獵人』，無法再換。" ++ "\n目前角色：" ++
            pretty_roles room.current_roles)]))) ∧
    (∀ uid text room, ensure_in_room uid rooms = some room →
      ¬ room.hunter_pending_uid = some uid →
      pm_hunter_shoot uid text rooms sched =
        (some room, rooms, sched, [(uid, "你目前無法開槍。")])) ∧
    (∀ rid uid room, regGet rooms rid = some room → uid = room.host_id →
      MIN_P ≤ room.players.length → room.players.length ≤ MAX_P → room.started = true →
      cmd_start rid uid rooms = (rooms, [(uid, "遊戲已開始。")])) := by
  refine ⟨?_, ?_, ?_, ?_, ?_, ?_, ?_, ?_, ?_, ?_, ?_, ?_, ?_, ?_, ?_, ?_⟩
  · intro uid text room hin hph
    refine ⟨?_, ?_, ?_, ?_, ?_⟩ <;>
      simp [pm_kill, pm_seer, pm_doctor, pm_witch_heal, pm_witch_poison, hin, hph]
  · intro rid uid tname room hget hph
    constructor <;> simp [cmd_vote, cmd_endday, hget, hph]
  · intro rid uid target room hget hhost hph
    constructor <;> simp [cmd_swap, cmd_confirm_roles, hget, ← hhost, hph]
  · intro rid uid target room hget hhost
    refine ⟨?_, ?_, ?_, ?_, fun hst => ⟨?_, ?_⟩⟩ <;>
      simp [cmd_start, cmd_swap, cmd_confirm_roles, cmd_reset, cmd_extend, cmd_force,
        hget, hhost, *]
  · intro uid text room c arg hin hs hp hsplit hfind
    refine ⟨fun ha hr => ?_, fun ha hr hdone => ?_, fun ha hr => ?_, fun ha hr hpl => ?_⟩ <;>
      simp [pm_kill, pm_seer, pm_doctor, pm_witch_poison, hin, hs, hp, hsplit, hfind,
        ha, hr, *]
  · intro rid uid tname room hget hph hmem ha hfind
    simp [cmd_vote, hget, hph, hmem, ha, hfind]
  · intro uid text room c arg hin hpend hsplit hfind
    simp [pm_hunter_shoot, hin, hpend, hsplit, hfind]
  · intro uid text room hin hs hp ha hr
    constructor <;> intro hleft <;>
      simp [pm_witch_heal, pm_witch_poison, hin, hs, hp, ha, hr, hleft]
  · intro uid text room c arg target hin hs hp ha hr hsplit hfind hlast htu hused
    have hlast2 : ¬ room.night_flags.doctor_last_saved_uid = some uid := by
      rw [← htu]; exact hlast
    simp [pm_doctor, hin, hs, hp, ha, hr, hsplit, hfind, hlast, hlast2, htu, hused]
  · intro uid text room hin hs hp ha hr hdone
    simp [pm_seer, hin, hs, hp, ha, hr, hdone]
  · intro uid text room c arg target hin hs hp ha hr hsplit hfind hlast
    simp [pm_doctor, hin, hs, hp, ha, hr, hsplit, hfind, hlast]
  · intro rid uid room hget hhost hcap
    simp [cmd_start, hget, ← hhost, hcap]
  · intro rid uid room hget hhost hph hlen
    simp [cmd_confirm_roles, hget, ← hhost, hph, hlen]
  · intro rid uid room hget hrid hhost hph
    have hset : regSet rooms room.room_id room = rooms := by
      rw [hrid]
      exact regSet_of_regGet rooms rid room hget
    have hroom1 : ({ room with current_roles := room.current_roles } : GameRoom) = room := rfl
    subst hhost
    constructor
    · intro hmem
      simp [cmd_swap, swap_doctor_to_witch, hget, hph, hmem]
      rw [← hph, hroom1]
      exact hset
    · intro hmem
      simp [cmd_swap, swap_villager_to_hunter, hget, hph, hmem]
      rw [← hph, hroom1]
      exact hset
  · intro uid text room hin hpend
    simp [pm_hunter_shoot, hin, hpend]
  · intro rid uid room hget hhost h5 h8 hst
    simp [cmd_start, hget, ← hhost, h5, h8, hst]

/-- Witness: six concrete rejections — a kill command while the room is
still waiting, a start command from a non-host, a host start with only
one player joined, a second witch swap on a template already holding the
witch, a shot attempt by a player with no pending shot, and a host start
on an already-started room — each replies with the exact notice and
leaves the registry and scheduler untouched. -/
theorem spec_C1_witness :
    pm_kill "v1" "擊殺 小明" regWaitC1 = (regWaitC1, [("v1", "現在不是夜晚，或你未在房間。")]) ∧
    cmd_start "G" "v1" regWaitC1 = (regWaitC1, [("v1", "只有建房者可「開始」。")]) ∧
    cmd_start "G" "h" regWaitC1 = (regWaitC1, [("h", "目前人數 1，需 5～8 人。")]) ∧
    cmd_swap "G2" "h" "女巫" regCfgC1 = (regCfgC1,
      [("h", "換角失敗：" ++ "已有『女巫』，無法再換。" ++ "\n目前角色：" ++
        pretty_roles roomCfgC1.current_roles)]) ∧
    pm_hunter_shoot "v1" "開槍 小明" regWaitC1 sched0 =
      (some roomWaitC1, regWaitC1, sched0, [("v1", "你目前無法開槍。")]) ∧
    cmd_start "G3" "h" regStartedC1 = (regStartedC1, [("h", "遊戲已開始。")]) := by
  have h := spec_C1_rejections regWaitC1 sched0 0 0 id id
  have h2 := spec_C1_rejections regCfgC1 sched0 0 0 id id
  have h3 := spec_C1_rejections regStartedC1 sched0 0 0 id id
  refine ⟨?_, ?_, ?_, ?_, ?_, ?_⟩
  · exact (h.1 "v1" "擊殺 小明" roomWaitC1 (by decide) (by decide)).1
  · exact (h.2.2.2.1 "G" "v1" "x" roomWaitC1 (by decide) (by decide)).1
  · have hc := h.2.2.2.2.2.2.2.2.2.2.2.1 "G" "h" roomWaitC1 (by decide) (by decide)
      (by decide)
    simpa using hc
  · exact (h2.2.2.2.2.2.2.2.2.2.2.2.2.2.1 "G2" "h" roomCfgC1 (by decide) (by decide)
      (by decide) (by decide)).1 (by decide)
  · exact h.2.2.2.2.2.2.2.2.2.2.2.2.2.2.1 "v1" "開槍 小明" roomWaitC1 (by decide) (by decide)
  · exact h3.2.2.2.2.2.2.2.2.2.2.2.2.2.2.2 "G3" "h" roomStartedC1 (by decide) (by decide)
      (by decide) (by decide) (by decide)

end WerewolfBot
